import Mathlib

/-!
# Shallow embedding of `AtmProgram.py` (class `ATMSystem`)

This file embeds the ATM engine of `src/AtmProgram.py` in Lean and proves
properties of its authentication/lockout state machine and its transaction
operations (`withdraw`, `deposit`, `transfer`, `change_pin`,
`simulate_interest`, `check_balance`, `get_transaction_history`, `logout`).

Modelling conventions:
* Python `Decimal` values are embedded as `Rat` (the source only ever uses
  exact decimal arithmetic: `+`, `-`, `*`, `%`, comparisons).
* Python `dict`s are embedded as association lists with unique keys;
  `dictSet` is `d[k] = v` (replace in place, else append, matching
  insertion-order semantics) and `dictFind` / `dictGet` are `d[k]` /
  `d.get(k, default)`.
* `datetime.now()` and `date.today()` are passed in explicitly: `now : Int`
  is a timestamp in seconds, `today : Nat` is an abstract calendar-date key.
* `hashlib.sha256(...).hexdigest()` is abstracted as a caller-supplied
  digest function `hf : String → String`; `_hash_password` first strips the
  input (Python `str.strip`, embedded as `pyStrip`) exactly as the source does.
* A Python function that can raise is embedded as `Except PyError`: the
  `.error` channel is a raised exception (`SecurityError` or a `KeyError`),
  the `.ok` channel is the `(success : bool, message : str)` pair the
  operation returns to its caller.
-/

/- The Batteries arithmetic on `Rat` is exact and computable but marked
irreducible, which blocks `decide` on concrete runs of the engine; restore
default reducibility for this development. -/
attribute [local semireducible] Rat.add Rat.sub Rat.mul Rat.inv

/-! ## Association-list model of Python `dict` -/

/-- `d[k]`: the value stored at the first (unique) occurrence of key `k`. -/
def dictFind {κ ν : Type} [BEq κ] (l : List (κ × ν)) (k : κ) : Option ν :=
  match l with
  | [] => none
  | p :: rest => if p.1 == k then some p.2 else dictFind rest k

/-- `d.get(k, dflt)`. -/
def dictGet {κ ν : Type} [BEq κ] (l : List (κ × ν)) (k : κ) (dflt : ν) : ν :=
  match dictFind l k with
  | some v => v
  | none => dflt

/-- `d[k] = v`: replace the value at `k` in place, appending a fresh entry
when the key is absent (Python dicts keep insertion order). -/
def dictSet {κ ν : Type} [BEq κ] (l : List (κ × ν)) (k : κ) (v : ν) : List (κ × ν) :=
  match l with
  | [] => [(k, v)]
  | p :: rest => if p.1 == k then (k, v) :: rest else p :: dictSet rest k v

theorem dictFind_dictSet_self {κ ν : Type} [BEq κ] [LawfulBEq κ]
    (l : List (κ × ν)) (k : κ) (v : ν) : dictFind (dictSet l k v) k = some v := by
  induction l with
  | nil => simp [dictFind, dictSet]
  | cons p rest ih =>
    by_cases h : p.1 = k
    · simp [dictFind, dictSet, h]
    · have hb : (p.1 == k) = false := beq_eq_false_iff_ne.mpr h
      simp [dictFind, dictSet, hb, ih]

theorem dictFind_dictSet_ne {κ ν : Type} [BEq κ] [LawfulBEq κ]
    (l : List (κ × ν)) (k k' : κ) (v : ν) (h : k' ≠ k) :
    dictFind (dictSet l k v) k' = dictFind l k' := by
  induction l with
  | nil =>
    have hb : (k == k') = false := beq_eq_false_iff_ne.mpr (Ne.symm h)
    simp [dictFind, dictSet, hb]
  | cons p rest ih =>
    have hkk' : (k == k') = false := beq_eq_false_iff_ne.mpr (Ne.symm h)
    by_cases hp : p.1 = k
    · simp [dictFind, dictSet, hp, hkk']
    · have hb : (p.1 == k) = false := beq_eq_false_iff_ne.mpr hp
      simp [dictFind, dictSet, hb, ih]

theorem dictGet_dictSet_self {κ ν : Type} [BEq κ] [LawfulBEq κ]
    (l : List (κ × ν)) (k : κ) (v dflt : ν) : dictGet (dictSet l k v) k dflt = v := by
  simp [dictGet, dictFind_dictSet_self]

theorem dictGet_dictSet_ne {κ ν : Type} [BEq κ] [LawfulBEq κ]
    (l : List (κ × ν)) (k k' : κ) (v : ν) (dflt : ν) (h : k' ≠ k) :
    dictGet (dictSet l k v) k' dflt = dictGet l k' dflt := by
  simp [dictGet, dictFind_dictSet_ne l k k' v h]

theorem mem_dictSet {κ ν : Type} [BEq κ] (l : List (κ × ν)) (k : κ) (v : ν)
    (p : κ × ν) (hp : p ∈ dictSet l k v) : p = (k, v) ∨ p ∈ l := by
  induction l with
  | nil =>
    simp [dictSet] at hp
    exact Or.inl hp
  | cons q rest ih =>
    by_cases hq : (q.1 == k) = true
    · simp [dictSet, hq] at hp
      rcases hp with h | h
      · exact Or.inl (by simp [h])
      · exact Or.inr (List.mem_cons_of_mem q h)
    · simp [dictSet, hq] at hp
      rcases hp with h | h
      · exact Or.inr (by simp [h])
      · rcases ih h with h' | h'
        · exact Or.inl h'
        · exact Or.inr (List.mem_cons_of_mem q h')

theorem dictFind_mem {κ ν : Type} [BEq κ] (l : List (κ × ν)) (k : κ) (v : ν)
    (h : dictFind l k = some v) : ∃ k', (k', v) ∈ l := by
  induction l with
  | nil => simp [dictFind] at h
  | cons p rest ih =>
    by_cases hp : (p.1 == k) = true
    · simp [dictFind, hp] at h
      exact ⟨p.1, by simp [← h]⟩
    · simp [dictFind, hp] at h
      rcases ih h with ⟨k', hk'⟩
      exact ⟨k', List.mem_cons_of_mem p hk'⟩

/-! ## Data model -/

/-- One entry of `ATMSystem.accounts`:
`{'password_hash': pw_hash, 'saldo': saldo}`. -/
structure AccountRec where
  password_hash : String
  saldo : Rat
deriving DecidableEq, Repr

/-- The `Transaction` dataclass (lines 19–25 of the source). The
`datetime` timestamp is embedded as seconds (`Int`). -/
structure Transaction where
  timestamp : Int
  type : String
  amount : Rat
  balance_after : Rat
  recipient : Option String := none
deriving DecidableEq, Repr

/-- Exceptions the engine can raise: the custom `SecurityError` (line 35)
and the `KeyError` a Python dict lookup raises on a missing key. -/
inductive PyError where
  | securityError (msg : String)
  | keyError
deriving DecidableEq, Repr

/-- The mutable attributes of `ATMSystem.__init__` (lines 41–51).
`daily_totals` is user ↦ transaction-type ↦ date ↦ accumulated amount. -/
structure ATMState where
  accounts : List (String × AccountRec)
  daily_totals : List (String × List (String × List (Nat × Rat)))
  transaction_history : List (String × List Transaction)
  failed_attempts : List (String × (Nat × Int))
  session_active : Bool
  current_user : Option String
deriving DecidableEq, Repr

instance exceptDecEq {ε α : Type} [DecidableEq ε] [DecidableEq α] :
    DecidableEq (Except ε α) := fun a b =>
  match a, b with
  | .ok x, .ok y =>
    match decEq x y with
    | isTrue h => isTrue (by rw [h])
    | isFalse h => isFalse (fun hh => by cases hh; exact h rfl)
  | .ok _, .error _ => isFalse (fun hh => by cases hh)
  | .error _, .ok _ => isFalse (fun hh => by cases hh)
  | .error x, .error y =>
    match decEq x y with
    | isTrue h => isTrue (by rw [h])
    | isFalse h => isFalse (fun hh => by cases hh; exact h rfl)

/-- Result type of a transaction operation: either a raised exception or
the returned `(success, message)` pair, together with the post state. -/
abbrev EngineResult := Except PyError ((Bool × String) × ATMState)

/-- The `success` boolean of a returned result (`false` when an exception
was raised instead). -/
def resOk (r : EngineResult) : Bool :=
  match r with
  | .ok ((b, _), _) => b
  | .error _ => false

/-- The message of a returned result (`""` when an exception was raised). -/
def resMsg (r : EngineResult) : String :=
  match r with
  | .ok ((_, m), _) => m
  | .error _ => ""

/-- The state after the operation; `dflt` is the state at the point an
exception was raised (every raise in the source happens before any
mutation, so the caller passes the pre state). -/
def resState (r : EngineResult) (dflt : ATMState) : ATMState :=
  match r with
  | .ok (_, s) => s
  | .error _ => dflt

/-- `true` iff the operation returned a result value (did not raise). -/
def isOkRes (r : EngineResult) : Bool :=
  match r with
  | .ok _ => true
  | .error _ => false

/-- `true` iff the operation raised the custom `SecurityError`. -/
def isSecurityError (r : EngineResult) : Bool :=
  match r with
  | .error (.securityError _) => true
  | _ => false

/-! ## Helper functions of the source -/

/-- Python `str.strip()`: drop leading and trailing whitespace. (Defined
structurally over the character list so that concrete runs reduce.) -/
def pyStrip (s : String) : String :=
  String.mk (((s.data.dropWhile Char.isWhitespace).reverse.dropWhile Char.isWhitespace).reverse)

/-- ASCII uppercase of one character (the usernames of this program are
ASCII, where Python `str.upper()` agrees with this). -/
def pyUpperChar (c : Char) : Char :=
  if 97 ≤ c.toNat ∧ c.toNat ≤ 122 then Char.ofNat (c.toNat - 32) else c

/-- Python `str.upper()`. -/
def pyUpper (s : String) : String :=
  String.mk (s.data.map pyUpperChar)

/-- `username.strip().upper()`, the key normalization applied by
`_load_initial_data`, `authenticate` and `transfer`. -/
def pyNormalize (s : String) : String :=
  pyUpper (pyStrip s)

/-- `_hash_password` (lines 77–80): SHA-256 digest of the *stripped*
password. The digest itself is abstracted as `hf`. -/
def hashPassword (hf : String → String) (password : String) : String :=
  hf (pyStrip password)

/-- Truncation of a rational toward zero (what Python `int(...)` and the
`Decimal` division underlying `%` use). -/
def ratTrunc (q : Rat) : Int :=
  Int.tdiv q.num (Int.ofNat q.den)

/-- Python `Decimal.__mod__`: remainder after division truncated toward
zero (the remainder carries the sign of the dividend). -/
def decMod (a b : Rat) : Rat :=
  a - b * ((ratTrunc (a / b) : Int) : Rat)

/-- Rendering of Python's grouped-thousands format specifier `:,`; the
digit grouping is presentation-only, so the plain value is rendered. -/
def pyFormatGrouped (a : Rat) : String :=
  toString a.num ++ (if a.den = 1 then ("") else ("/") ++ toString a.den)

/-- Console message of the lockout branch (line 93). -/
def lockMessage (time_diff : Int) : String :=
  "Account locked. Please try again in " ++
    toString (5 - Int.fdiv time_diff 60) ++ " minutes"

/-- Console message printed by `_handle_failed_attempt` (lines 123–125). -/
def failMsg (attempts : Nat) : String :=
  "Login failed. " ++ toString (max 0 (3 - (attempts : Int))) ++
    " attempt(s) remaining before temporary lockout."

/-! ## Engine operations -/

/-- `_assert_session` (lines 127–129): raises `SecurityError` unless a
session is active and bound to a user; otherwise yields that user. -/
def assert_session (s : ATMState) : Except PyError String :=
  match s.session_active, s.current_user with
  | true, some u => .ok u
  | _, _ => .error (.securityError ("No active session"))

/-- `check_balance` (lines 131–134). The dict lookup raises `KeyError`
when the bound user does not exist. -/
def check_balance (s : ATMState) : Except PyError Rat :=
  match assert_session s with
  | .error e => .error e
  | .ok user =>
    match dictFind s.accounts user with
    | some acc => .ok acc.saldo
    | none => .error .keyError

/-- `_get_daily_total` (lines 142–145) for an explicit user. -/
def get_daily_total (s : ATMState) (user trans_type : String) (today : Nat) : Rat :=
  dictGet (dictGet (dictGet s.daily_totals user []) trans_type []) today 0

/-- `_update_daily_total` (lines 136–140) for an explicit user. (In the
source the two outer lookups are plain indexing; every reachable call has
both keys present, so the `dictGet` defaults are never used.) -/
def update_daily_total (s : ATMState) (user trans_type : String) (today : Nat)
    (amount : Rat) : ATMState :=
  let user_totals := dictGet (dictGet s.daily_totals user []) trans_type []
  let newInner := dictSet user_totals today (dictGet user_totals today 0 + amount)
  let newForUser := dictSet (dictGet s.daily_totals user []) trans_type newInner
  { s with daily_totals := dictSet s.daily_totals user newForUser }

/-- `_log_transaction` (lines 147–152) for an explicit user: append the
record to the user's history, creating the list when absent. -/
def log_transaction (s : ATMState) (user : String) (trans : Transaction) : ATMState :=
  let newHist := dictSet s.transaction_history user (dictGet s.transaction_history user [] ++ [trans])
  { s with transaction_history := newHist }

/-- `_handle_failed_attempt` (lines 114–125), fused with the `return False`
of its caller: increments the per-user failure counter (starting at 1) and
stamps the current time. -/
def handle_failed_attempt (now : Int) (username : String) (s : ATMState) :
    (Bool × String) × ATMState :=
  let attempts : Nat :=
    match dictFind s.failed_attempts username with
    | some (a, _) => a + 1
    | none => 1
  ((false, failMsg attempts),
   { s with failed_attempts := dictSet s.failed_attempts username (attempts, now) })

/-- `authenticate` (lines 82–112). The returned `String` is the console
feedback of the branch taken (`""` on success, where the source only
logs); `now` is `datetime.now()` in seconds. -/
def authenticate (hf : String → String) (now : Int) (username password : String)
    (s : ATMState) : (Bool × String) × ATMState :=
  let username := pyNormalize username
  let afterLock : Option ((Bool × String) × ATMState) × ATMState :=
    match dictFind s.failed_attempts username with
    | some (attempts, last_attempt) =>
      if attempts ≥ 3 then
        let time_diff := now - last_attempt
        if time_diff < 300 then (some ((false, lockMessage time_diff), s), s)
        else (none, { s with failed_attempts := dictSet s.failed_attempts username (0, now) })
      else (none, s)
    | none => (none, s)
  match afterLock with
  | (some r, _) => r
  | (none, s1) =>
    match dictFind s1.accounts username with
    | none => ((false, "User not found."), s1)
    | some acc =>
      if hashPassword hf password == acc.password_hash then
        ((true, ""),
         { s1 with failed_attempts := dictSet s1.failed_attempts username (0, now),
                   session_active := true,
                   current_user := some username })
      else handle_failed_attempt now username s1

/-- `logout` (lines 263–268). -/
def logout (s : ATMState) : ATMState :=
  if s.session_active then { s with session_active := false, current_user := none }
  else s

/-- `withdraw` (lines 154–184). `amount` is already a `Decimal`, so the
`Decimal(amount)` re-parse of line 158 cannot fail and is omitted. -/
def withdraw (now : Int) (today : Nat) (amount : Rat) (s : ATMState) : EngineResult :=
  match assert_session s with
  | .error e => .error e
  | .ok user =>
    if amount ≤ 0 then .ok ((false, "Amount must be positive"), s)
    else if decMod amount 50000 ≠ 0 then
      .ok ((false, "Amount must be in multiples of 50,000"), s)
    else
      match check_balance s with
      | .error e => .error e
      | .ok current_balance =>
        if amount > current_balance then .ok ((false, "Insufficient funds"), s)
        else if get_daily_total s user ("withdrawal") today + amount > 5000000 then
          .ok ((false, "Daily withdrawal limit (Rp5,000,000) exceeded"), s)
        else
          match dictFind s.accounts user with
          | none => .error .keyError
          | some acc =>
            let s1 : ATMState :=
              { s with accounts :=
                  dictSet s.accounts user { acc with saldo := acc.saldo - amount } }
            let s2 := update_daily_total s1 user ("withdrawal") today amount
            match check_balance s2 with
            | .error e => .error e
            | .ok balance_after =>
              .ok ((true, "Successfully withdrawn Rp" ++ pyFormatGrouped amount),
                   log_transaction s2 user
                     { timestamp := now, type := "withdrawal", amount := amount,
                       balance_after := balance_after, recipient := none })

/-- `deposit` (lines 186–206). -/
def deposit (now : Int) (today : Nat) (amount : Rat) (s : ATMState) : EngineResult :=
  match assert_session s with
  | .error e => .error e
  | .ok user =>
    if amount ≤ 0 then .ok ((false, "Amount must be positive"), s)
    else
      match dictFind s.accounts user with
      | none => .error .keyError
      | some acc =>
        let s1 : ATMState :=
          { s with accounts :=
              dictSet s.accounts user { acc with saldo := acc.saldo + amount } }
        let s2 := update_daily_total s1 user ("deposit") today amount
        match check_balance s2 with
        | .error e => .error e
        | .ok balance_after =>
          .ok ((true, "Successfully deposited Rp" ++ pyFormatGrouped amount),
               log_transaction s2 user
                 { timestamp := now, type := "deposit", amount := amount,
                   balance_after := balance_after, recipient := none })

/-- `transfer` (lines 208–232): validates the recipient, then performs a
full `withdraw` (which logs its own record) and credits the recipient. -/
def transfer (now : Int) (today : Nat) (recipient : String) (amount : Rat)
    (s : ATMState) : EngineResult :=
  match assert_session s with
  | .error e => .error e
  | .ok user =>
    let recipient := pyNormalize recipient
    if (dictFind s.accounts recipient).isNone then
      .ok ((false, "Recipient account not found"), s)
    else if recipient == user then
      .ok ((false, "Cannot transfer to your own account"), s)
    else
      match withdraw now today amount s with
      | .error e => .error e
      | .ok ((success, message), s1) =>
        if success then
          match dictFind s1.accounts recipient with
          | none => .error .keyError
          | some racc =>
            let s2 : ATMState :=
              { s1 with accounts :=
                  dictSet s1.accounts recipient { racc with saldo := racc.saldo + amount } }
            let s3 := update_daily_total s2 user ("transfer") today amount
            match check_balance s3 with
            | .error e => .error e
            | .ok balance_after =>
              .ok ((true, "Successfully transferred Rp" ++ pyFormatGrouped amount ++
                          " to " ++ recipient),
                   log_transaction s3 user
                     { timestamp := now, type := "transfer", amount := amount,
                       balance_after := balance_after, recipient := some recipient })
        else .ok ((false, message), s1)

/-- `change_pin` (lines 234–241). -/
def change_pin (hf : String → String) (old_pin new_pin : String) (s : ATMState) :
    EngineResult :=
  match assert_session s with
  | .error e => .error e
  | .ok user =>
    match dictFind s.accounts user with
    | none => .error .keyError
    | some acc =>
      if hashPassword hf old_pin ≠ acc.password_hash then
        .ok ((false, "Incorrect old PIN"), s)
      else
        let newAccounts :=
          dictSet s.accounts user { acc with password_hash := hashPassword hf new_pin }
        .ok ((true, "PIN successfully changed."), { s with accounts := newAccounts })

/-- `simulate_interest` (lines 243–256): credits `balance * rate` with no
validation of the rate beyond the session assertion. -/
def simulate_interest (now : Int) (interest_rate : Rat) (s : ATMState) : EngineResult :=
  match assert_session s with
  | .error e => .error e
  | .ok user =>
    match check_balance s with
    | .error e => .error e
    | .ok current_balance =>
      let interest := current_balance * interest_rate
      match dictFind s.accounts user with
      | none => .error .keyError
      | some acc =>
        let s1 : ATMState :=
          { s with accounts :=
              dictSet s.accounts user { acc with saldo := acc.saldo + interest } }
        match check_balance s1 with
        | .error e => .error e
        | .ok balance_after =>
          .ok ((true, "Interest of Rp" ++ pyFormatGrouped interest ++ " applied."),
               log_transaction s1 user
                 { timestamp := now, type := "interest", amount := interest,
                   balance_after := balance_after, recipient := none })

/-- `get_transaction_history` (lines 258–261); the `to_dict` serialization
of each record is presentation and is omitted. -/
def get_transaction_history (s : ATMState) : Except PyError (List Transaction) :=
  match assert_session s with
  | .error e => .error e
  | .ok user => .ok (dictGet s.transaction_history user [])

/-- `_load_initial_data` defaults plus `__init__` (lines 41–75). -/
def initState (hf : String → String) : ATMState :=
  { accounts :=
      [(pyNormalize ("ATA"), { password_hash := hashPassword hf ("8830"), saldo := 100000 }),
       (pyNormalize ("AISYAH"), { password_hash := hashPassword hf ("8790"), saldo := 50000 }),
       (pyNormalize ("EZRA DEBY"), { password_hash := hashPassword hf ("9086"), saldo := 200000 })],
    daily_totals :=
      [(pyNormalize ("ATA"), [("withdrawal", []), ("deposit", []), ("transfer", [])]),
       (pyNormalize ("AISYAH"), [("withdrawal", []), ("deposit", []), ("transfer", [])]),
       (pyNormalize ("EZRA DEBY"), [("withdrawal", []), ("deposit", []), ("transfer", [])])],
    transaction_history := [],
    failed_attempts := [],
    session_active := false,
    current_user := none }

/-! ## Basic lemmas about the state helpers -/

@[simp] theorem update_daily_total_accounts (s : ATMState) (u tt : String) (d : Nat) (a : Rat) :
    (update_daily_total s u tt d a).accounts = s.accounts := rfl

@[simp] theorem update_daily_total_session (s : ATMState) (u tt : String) (d : Nat) (a : Rat) :
    (update_daily_total s u tt d a).session_active = s.session_active := rfl

@[simp] theorem update_daily_total_user (s : ATMState) (u tt : String) (d : Nat) (a : Rat) :
    (update_daily_total s u tt d a).current_user = s.current_user := rfl

@[simp] theorem update_daily_total_history (s : ATMState) (u tt : String) (d : Nat) (a : Rat) :
    (update_daily_total s u tt d a).transaction_history = s.transaction_history := rfl

@[simp] theorem update_daily_total_failed (s : ATMState) (u tt : String) (d : Nat) (a : Rat) :
    (update_daily_total s u tt d a).failed_attempts = s.failed_attempts := rfl

@[simp] theorem log_transaction_accounts (s : ATMState) (u : String) (t : Transaction) :
    (log_transaction s u t).accounts = s.accounts := rfl

@[simp] theorem log_transaction_session (s : ATMState) (u : String) (t : Transaction) :
    (log_transaction s u t).session_active = s.session_active := rfl

@[simp] theorem log_transaction_user (s : ATMState) (u : String) (t : Transaction) :
    (log_transaction s u t).current_user = s.current_user := rfl

@[simp] theorem log_transaction_daily (s : ATMState) (u : String) (t : Transaction) :
    (log_transaction s u t).daily_totals = s.daily_totals := rfl

@[simp] theorem log_transaction_failed (s : ATMState) (u : String) (t : Transaction) :
    (log_transaction s u t).failed_attempts = s.failed_attempts := rfl

theorem log_transaction_history (s : ATMState) (u : String) (t : Transaction) :
    (log_transaction s u t).transaction_history =
      dictSet s.transaction_history u (dictGet s.transaction_history u [] ++ [t]) := rfl

theorem assert_session_ok_iff (s : ATMState) (u : String) :
    assert_session s = .ok u ↔ s.session_active = true ∧ s.current_user = some u := by
  cases hsa : s.session_active <;> cases hcu : s.current_user <;>
    simp [assert_session, hsa, hcu]

theorem check_balance_eq (s : ATMState) (u : String) (acc : AccountRec)
    (hsa : s.session_active = true) (hcu : s.current_user = some u)
    (hacc : dictFind s.accounts u = some acc) : check_balance s = .ok acc.saldo := by
  simp [check_balance, assert_session, hsa, hcu, hacc]

/-- The post state of a successful `withdraw` for user `u` whose account
record was `acc`. -/
def withdraw_post (now : Int) (today : Nat) (amount : Rat) (s : ATMState)
    (u : String) (acc : AccountRec) : ATMState :=
  let s1 : ATMState :=
    { s with accounts := dictSet s.accounts u { acc with saldo := acc.saldo - amount } }
  let s2 := update_daily_total s1 u ("withdrawal") today amount
  log_transaction s2 u
    { timestamp := now, type := "withdrawal", amount := amount,
      balance_after := acc.saldo - amount, recipient := none }

theorem withdraw_eq_ok (now : Int) (today : Nat) (amount : Rat) (s : ATMState)
    (u : String) (acc : AccountRec)
    (hsa : s.session_active = true) (hcu : s.current_user = some u)
    (hacc : dictFind s.accounts u = some acc)
    (h1 : 0 < amount) (h2 : decMod amount 50000 = 0) (h3 : amount ≤ acc.saldo)
    (h4 : get_daily_total s u ("withdrawal") today + amount ≤ 5000000) :
    withdraw now today amount s =
      .ok ((true, "Successfully withdrawn Rp" ++ pyFormatGrouped amount),
           withdraw_post now today amount s u acc) := by
  have hses : assert_session s = .ok u := (assert_session_ok_iff s u).mpr ⟨hsa, hcu⟩
  have hcb : check_balance s = .ok acc.saldo := check_balance_eq s u acc hsa hcu hacc
  have hcb2 : check_balance (update_daily_total
      { s with accounts := dictSet s.accounts u { acc with saldo := acc.saldo - amount } }
      u ("withdrawal") today amount) = .ok (acc.saldo - amount) := by
    apply check_balance_eq _ u { acc with saldo := acc.saldo - amount }
    · simp [hsa]
    · simp [hcu]
    · simp [dictFind_dictSet_self]
  simp [withdraw, withdraw_post, hses, hcb, hacc, hcb2, not_le.mpr h1,
    not_not_intro h2, not_lt.mpr h3, not_lt.mpr h4]

theorem withdraw_ok_false (now : Int) (today : Nat) (amount : Rat) (s : ATMState)
    (m : String) (s' : ATMState)
    (h : withdraw now today amount s = .ok ((false, m), s')) : s' = s := by
  unfold withdraw at h
  split at h
  · simp at h
  · split at h
    · simp at h
      exact h.2.symm
    · split at h
      · simp at h
        exact h.2.symm
      · split at h
        · simp at h
        · split at h
          · simp at h
            exact h.2.symm
          · split at h
            · simp at h
              exact h.2.symm
            · dsimp only at h
              split at h
              · simp at h
              · split at h
                · simp at h
                · simp at h

theorem withdraw_ok_true_inv (now : Int) (today : Nat) (amount : Rat) (s : ATMState)
    (m : String) (s' : ATMState)
    (h : withdraw now today amount s = .ok ((true, m), s')) :
    ∃ u acc, s.session_active = true ∧ s.current_user = some u ∧
      dictFind s.accounts u = some acc ∧
      0 < amount ∧ decMod amount 50000 = 0 ∧ amount ≤ acc.saldo ∧
      get_daily_total s u ("withdrawal") today + amount ≤ 5000000 ∧
      s' = withdraw_post now today amount s u acc := by
  unfold withdraw at h
  split at h
  · simp at h
  · rename_i user hses
    split at h
    · simp at h
    · rename_i hpos
      split at h
      · simp at h
      · rename_i hmult
        split at h
        · simp at h
        · rename_i current_balance hcb
          split at h
          · simp at h
          · rename_i hbal
            split at h
            · simp at h
            · rename_i hdaily
              dsimp only at h
              split at h
              · simp at h
              · rename_i acc hacc
                split at h
                · simp at h
                · rename_i balance_after hcb2
                  obtain ⟨hsa, hcu⟩ := (assert_session_ok_iff s user).mp hses
                  have hcbv : check_balance s = .ok acc.saldo :=
                    check_balance_eq s user acc hsa hcu hacc
                  rw [hcb] at hcbv
                  have hcbv' : current_balance = acc.saldo := by
                    simpa using hcbv
                  have hcb2v : check_balance (update_daily_total
                      { s with accounts :=
                          dictSet s.accounts user { acc with saldo := acc.saldo - amount } }
                      user ("withdrawal") today amount) = .ok (acc.saldo - amount) := by
                    apply check_balance_eq _ user { acc with saldo := acc.saldo - amount }
                    · simp [hsa]
                    · simp [hcu]
                    · simp [dictFind_dictSet_self]
                  rw [hcb2] at hcb2v
                  have hbav : balance_after = acc.saldo - amount := by
                    have := hcb2v.symm
                    simpa using this.symm
                  simp only [Except.ok.injEq, Prod.mk.injEq] at h
                  refine ⟨user, acc, hsa, hcu, hacc, not_le.mp hpos, not_not.mp hmult,
                    not_lt.mp (hcbv' ▸ hbal), not_lt.mp hdaily, ?_⟩
                  rw [← h.2, withdraw_post, hbav]

theorem get_daily_total_update_self (s : ATMState) (u tt : String) (d : Nat) (a : Rat) :
    get_daily_total (update_daily_total s u tt d a) u tt d =
      get_daily_total s u tt d + a := by
  simp [get_daily_total, update_daily_total, dictGet_dictSet_self]

theorem get_daily_total_update_other_date (s : ATMState) (u tt : String) (d d' : Nat)
    (a : Rat) (hd : d' ≠ d) :
    get_daily_total (update_daily_total s u tt d a) u tt d' =
      get_daily_total s u tt d' := by
  simp [get_daily_total, update_daily_total, dictGet_dictSet_self,
    dictGet_dictSet_ne _ _ _ _ _ hd]

theorem withdraw_post_accounts (now : Int) (today : Nat) (amount : Rat) (s : ATMState)
    (u : String) (acc : AccountRec) :
    (withdraw_post now today amount s u acc).accounts =
      dictSet s.accounts u { acc with saldo := acc.saldo - amount } := by
  simp [withdraw_post]

theorem withdraw_post_session (now : Int) (today : Nat) (amount : Rat) (s : ATMState)
    (u : String) (acc : AccountRec) :
    (withdraw_post now today amount s u acc).session_active = s.session_active := by
  simp [withdraw_post]

theorem withdraw_post_user (now : Int) (today : Nat) (amount : Rat) (s : ATMState)
    (u : String) (acc : AccountRec) :
    (withdraw_post now today amount s u acc).current_user = s.current_user := by
  simp [withdraw_post]

theorem withdraw_post_failed (now : Int) (today : Nat) (amount : Rat) (s : ATMState)
    (u : String) (acc : AccountRec) :
    (withdraw_post now today amount s u acc).failed_attempts = s.failed_attempts := by
  simp [withdraw_post]

theorem withdraw_post_history (now : Int) (today : Nat) (amount : Rat) (s : ATMState)
    (u : String) (acc : AccountRec) :
    (withdraw_post now today amount s u acc).transaction_history =
      dictSet s.transaction_history u (dictGet s.transaction_history u [] ++
        [{ timestamp := now, type := "withdrawal", amount := amount,
           balance_after := acc.saldo - amount, recipient := none }]) := by
  simp [withdraw_post, log_transaction]

theorem withdraw_post_daily (now : Int) (today : Nat) (amount : Rat) (s : ATMState)
    (u : String) (acc : AccountRec) :
    (withdraw_post now today amount s u acc).daily_totals =
      (update_daily_total
        { s with accounts := dictSet s.accounts u { acc with saldo := acc.saldo - amount } }
        u ("withdrawal") today amount).daily_totals := by
  simp [withdraw_post]

theorem withdraw_eq_fail_pos (now : Int) (today : Nat) (amount : Rat) (s : ATMState)
    (u : String) (hsa : s.session_active = true) (hcu : s.current_user = some u)
    (h1 : amount ≤ 0) :
    withdraw now today amount s = .ok ((false, "Amount must be positive"), s) := by
  have hses : assert_session s = .ok u := (assert_session_ok_iff s u).mpr ⟨hsa, hcu⟩
  simp [withdraw, hses, h1]

theorem withdraw_eq_fail_mult (now : Int) (today : Nat) (amount : Rat) (s : ATMState)
    (u : String) (hsa : s.session_active = true) (hcu : s.current_user = some u)
    (h1 : 0 < amount) (h2 : decMod amount 50000 ≠ 0) :
    withdraw now today amount s =
      .ok ((false, "Amount must be in multiples of 50,000"), s) := by
  have hses : assert_session s = .ok u := (assert_session_ok_iff s u).mpr ⟨hsa, hcu⟩
  simp [withdraw, hses, not_le.mpr h1, h2]

theorem withdraw_eq_fail_funds (now : Int) (today : Nat) (amount : Rat) (s : ATMState)
    (u : String) (acc : AccountRec)
    (hsa : s.session_active = true) (hcu : s.current_user = some u)
    (hacc : dictFind s.accounts u = some acc)
    (h1 : 0 < amount) (h2 : decMod amount 50000 = 0) (h3 : acc.saldo < amount) :
    withdraw now today amount s = .ok ((false, "Insufficient funds"), s) := by
  have hses : assert_session s = .ok u := (assert_session_ok_iff s u).mpr ⟨hsa, hcu⟩
  have hcb : check_balance s = .ok acc.saldo := check_balance_eq s u acc hsa hcu hacc
  simp [withdraw, hses, hcb, not_le.mpr h1, not_not_intro h2, h3]

theorem withdraw_eq_fail_daily (now : Int) (today : Nat) (amount : Rat) (s : ATMState)
    (u : String) (acc : AccountRec)
    (hsa : s.session_active = true) (hcu : s.current_user = some u)
    (hacc : dictFind s.accounts u = some acc)
    (h1 : 0 < amount) (h2 : decMod amount 50000 = 0) (h3 : amount ≤ acc.saldo)
    (h4 : 5000000 < get_daily_total s u ("withdrawal") today + amount) :
    withdraw now today amount s =
      .ok ((false, "Daily withdrawal limit (Rp5,000,000) exceeded"), s) := by
  have hses : assert_session s = .ok u := (assert_session_ok_iff s u).mpr ⟨hsa, hcu⟩
  have hcb : check_balance s = .ok acc.saldo := check_balance_eq s u acc hsa hcu hacc
  simp [withdraw, hses, hcb, not_le.mpr h1, not_not_intro h2, not_lt.mpr h3, h4]

theorem withdraw_isOk (now : Int) (today : Nat) (amount : Rat) (s : ATMState)
    (u : String) (acc : AccountRec)
    (hsa : s.session_active = true) (hcu : s.current_user = some u)
    (hacc : dictFind s.accounts u = some acc) :
    isOkRes (withdraw now today amount s) = true := by
  rcases le_or_lt amount 0 with h1 | h1
  · rw [withdraw_eq_fail_pos now today amount s u hsa hcu h1]; rfl
  · by_cases h2 : decMod amount 50000 = 0
    · rcases lt_or_le acc.saldo amount with h3 | h3
      · rw [withdraw_eq_fail_funds now today amount s u acc hsa hcu hacc h1 h2 h3]; rfl
      · rcases le_or_lt (get_daily_total s u ("withdrawal") today + amount) 5000000 with h4 | h4
        · rw [withdraw_eq_ok now today amount s u acc hsa hcu hacc h1 h2 h3 h4]; rfl
        · rw [withdraw_eq_fail_daily now today amount s u acc hsa hcu hacc h1 h2 h3 h4]; rfl
    · rw [withdraw_eq_fail_mult now today amount s u hsa hcu h1 h2]; rfl

/-- The post state of a successful `deposit`. -/
def deposit_post (now : Int) (today : Nat) (amount : Rat) (s : ATMState)
    (u : String) (acc : AccountRec) : ATMState :=
  let s1 : ATMState :=
    { s with accounts := dictSet s.accounts u { acc with saldo := acc.saldo + amount } }
  let s2 := update_daily_total s1 u ("deposit") today amount
  log_transaction s2 u
    { timestamp := now, type := "deposit", amount := amount,
      balance_after := acc.saldo + amount, recipient := none }

theorem deposit_eq_ok (now : Int) (today : Nat) (amount : Rat) (s : ATMState)
    (u : String) (acc : AccountRec)
    (hsa : s.session_active = true) (hcu : s.current_user = some u)
    (hacc : dictFind s.accounts u = some acc) (h1 : 0 < amount) :
    deposit now today amount s =
      .ok ((true, "Successfully deposited Rp" ++ pyFormatGrouped amount),
           deposit_post now today amount s u acc) := by
  have hses : assert_session s = .ok u := (assert_session_ok_iff s u).mpr ⟨hsa, hcu⟩
  have hcb2 : check_balance (update_daily_total
      { s with accounts := dictSet s.accounts u { acc with saldo := acc.saldo + amount } }
      u ("deposit") today amount) = .ok (acc.saldo + amount) := by
    apply check_balance_eq _ u { acc with saldo := acc.saldo + amount }
    · simp [hsa]
    · simp [hcu]
    · simp [dictFind_dictSet_self]
  simp [deposit, deposit_post, hses, hacc, hcb2, not_le.mpr h1]

theorem deposit_eq_fail_pos (now : Int) (today : Nat) (amount : Rat) (s : ATMState)
    (u : String) (hsa : s.session_active = true) (hcu : s.current_user = some u)
    (h1 : amount ≤ 0) :
    deposit now today amount s = .ok ((false, "Amount must be positive"), s) := by
  have hses : assert_session s = .ok u := (assert_session_ok_iff s u).mpr ⟨hsa, hcu⟩
  simp [deposit, hses, h1]

theorem deposit_ok_false (now : Int) (today : Nat) (amount : Rat) (s : ATMState)
    (m : String) (s' : ATMState)
    (h : deposit now today amount s = .ok ((false, m), s')) : s' = s := by
  unfold deposit at h
  split at h
  · simp at h
  · split at h
    · simp at h
      exact h.2.symm
    · dsimp only at h
      split at h
      · simp at h
      · split at h
        · simp at h
        · simp at h

theorem deposit_ok_true_inv (now : Int) (today : Nat) (amount : Rat) (s : ATMState)
    (m : String) (s' : ATMState)
    (h : deposit now today amount s = .ok ((true, m), s')) :
    ∃ u acc, s.session_active = true ∧ s.current_user = some u ∧
      dictFind s.accounts u = some acc ∧ 0 < amount ∧
      s' = deposit_post now today amount s u acc := by
  unfold deposit at h
  split at h
  · simp at h
  · rename_i user hses
    split at h
    · simp at h
    · rename_i hpos
      dsimp only at h
      split at h
      · simp at h
      · rename_i acc hacc
        split at h
        · simp at h
        · rename_i balance_after hcb2
          obtain ⟨hsa, hcu⟩ := (assert_session_ok_iff s user).mp hses
          have hcb2v : check_balance (update_daily_total
              { s with accounts :=
                  dictSet s.accounts user { acc with saldo := acc.saldo + amount } }
              user ("deposit") today amount) = .ok (acc.saldo + amount) := by
            apply check_balance_eq _ user { acc with saldo := acc.saldo + amount }
            · simp [hsa]
            · simp [hcu]
            · simp [dictFind_dictSet_self]
          rw [hcb2] at hcb2v
          have hbav : balance_after = acc.saldo + amount := by
            have := hcb2v
            simpa using this
          simp only [Except.ok.injEq, Prod.mk.injEq] at h
          refine ⟨user, acc, hsa, hcu, hacc, not_le.mp hpos, ?_⟩
          rw [← h.2, deposit_post, hbav]

theorem deposit_post_accounts (now : Int) (today : Nat) (amount : Rat) (s : ATMState)
    (u : String) (acc : AccountRec) :
    (deposit_post now today amount s u acc).accounts =
      dictSet s.accounts u { acc with saldo := acc.saldo + amount } := by
  simp [deposit_post]

theorem deposit_post_history (now : Int) (today : Nat) (amount : Rat) (s : ATMState)
    (u : String) (acc : AccountRec) :
    (deposit_post now today amount s u acc).transaction_history =
      dictSet s.transaction_history u (dictGet s.transaction_history u [] ++
        [{ timestamp := now, type := "deposit", amount := amount,
           balance_after := acc.saldo + amount, recipient := none }]) := by
  simp [deposit_post, log_transaction]

/-- The post state of a successful `transfer` to normalized recipient `r`,
where `acc` was the sender's record and `racc` the recipient's record. -/
def transfer_post (now : Int) (today : Nat) (r : String) (amount : Rat) (s : ATMState)
    (u : String) (acc racc : AccountRec) : ATMState :=
  let s1 := withdraw_post now today amount s u acc
  let s2 : ATMState :=
    { s1 with accounts := dictSet s1.accounts r { racc with saldo := racc.saldo + amount } }
  let s3 := update_daily_total s2 u ("transfer") today amount
  log_transaction s3 u
    { timestamp := now, type := "transfer", amount := amount,
      balance_after := acc.saldo - amount, recipient := some r }

theorem transfer_ok_false (now : Int) (today : Nat) (r : String) (amount : Rat)
    (s : ATMState) (m : String) (s' : ATMState)
    (h : transfer now today r amount s = .ok ((false, m), s')) : s' = s := by
  unfold transfer at h
  split at h
  · simp at h
  · rename_i user hses
    by_cases hrcp : (dictFind s.accounts (pyNormalize r)).isNone = true
    · rw [if_pos hrcp] at h
      simp at h
      exact h.2.symm
    · rw [if_neg hrcp] at h
      by_cases hself : (pyNormalize r == user) = true
      · rw [if_pos hself] at h
        simp at h
        exact h.2.symm
      · rw [if_neg hself] at h
        rcases hw : withdraw now today amount s with e | v
        · rw [hw] at h
          simp at h
        · obtain ⟨⟨success, message⟩, s1⟩ := v
          rw [hw] at h
          cases success
          · simp at h
            rw [← h.2]
            exact withdraw_ok_false now today amount s message s1 hw
          · dsimp only at h
            simp only [reduceIte] at h
            split at h
            · simp at h
            · split at h
              · simp at h
              · simp at h

theorem transfer_ok_true_inv (now : Int) (today : Nat) (r : String) (amount : Rat)
    (s : ATMState) (m : String) (s' : ATMState)
    (h : transfer now today r amount s = .ok ((true, m), s')) :
    ∃ u acc racc, s.session_active = true ∧ s.current_user = some u ∧
      dictFind s.accounts u = some acc ∧
      dictFind s.accounts (pyNormalize r) = some racc ∧ pyNormalize r ≠ u ∧
      0 < amount ∧ decMod amount 50000 = 0 ∧ amount ≤ acc.saldo ∧
      get_daily_total s u ("withdrawal") today + amount ≤ 5000000 ∧
      s' = transfer_post now today (pyNormalize r) amount s u acc racc := by
  unfold transfer at h
  split at h
  · simp at h
  · rename_i user hses
    by_cases hrcp : (dictFind s.accounts (pyNormalize r)).isNone = true
    · rw [if_pos hrcp] at h
      simp at h
    · rw [if_neg hrcp] at h
      by_cases hself : (pyNormalize r == user) = true
      · rw [if_pos hself] at h
        simp at h
      · rw [if_neg hself] at h
        rcases hw : withdraw now today amount s with e | v
        · rw [hw] at h
          simp at h
        · obtain ⟨⟨success, message⟩, s1⟩ := v
          rw [hw] at h
          cases success
          · simp at h
          · dsimp only at h
            simp only [reduceIte] at h
            split at h
            · simp at h
            · rename_i racc hracc
              split at h
              · simp at h
              · rename_i balance_after hcb3
                obtain ⟨u0, acc, hsa, hcu, hacc, hpos, hmult, hbal, hdaily, hs1⟩ :=
                  withdraw_ok_true_inv now today amount s message s1 hw
                obtain ⟨hsa2, hcu2⟩ := (assert_session_ok_iff s user).mp hses
                have huu : u0 = user := by
                  rw [hcu] at hcu2
                  injection hcu2
                subst huu
                have hrne : pyNormalize r ≠ u0 := by
                  intro hEq
                  rw [hEq] at hself
                  simp at hself
                have hraccs : dictFind s.accounts (pyNormalize r) = some racc := by
                  rw [hs1, withdraw_post_accounts,
                    dictFind_dictSet_ne _ _ _ _ hrne] at hracc
                  exact hracc
                have hcb3v : check_balance (update_daily_total
                    { s1 with accounts := dictSet s1.accounts (pyNormalize r) { racc with saldo := racc.saldo + amount } }
                    u0 ("transfer") today amount) = .ok (acc.saldo - amount) := by
                  apply check_balance_eq _ u0 { acc with saldo := acc.saldo - amount }
                  · simp [hs1, withdraw_post_session, hsa]
                  · simp [hs1, withdraw_post_user, hcu]
                  · simp only [update_daily_total_accounts]
                    rw [dictFind_dictSet_ne _ _ _ _ (Ne.symm hrne)]
                    rw [hs1, withdraw_post_accounts, dictFind_dictSet_self]
                rw [hcb3] at hcb3v
                have hbav : balance_after = acc.saldo - amount := by
                  injection hcb3v.symm with hh
                  exact hh.symm
                simp only [Except.ok.injEq, Prod.mk.injEq] at h
                refine ⟨u0, acc, racc, hsa, hcu, hacc, hraccs, hrne, hpos, hmult,
                  hbal, hdaily, ?_⟩
                rw [← h.2, transfer_post, hbav, hs1]

theorem change_pin_eq_ok (hf : String → String) (old_pin new_pin : String) (s : ATMState)
    (u : String) (acc : AccountRec)
    (hsa : s.session_active = true) (hcu : s.current_user = some u)
    (hacc : dictFind s.accounts u = some acc)
    (hold : hashPassword hf old_pin = acc.password_hash) :
    change_pin hf old_pin new_pin s =
      .ok ((true, "PIN successfully changed."),
           { s with accounts := dictSet s.accounts u { acc with password_hash := hashPassword hf new_pin } }) := by
  have hses : assert_session s = .ok u := (assert_session_ok_iff s u).mpr ⟨hsa, hcu⟩
  simp [change_pin, hses, hacc, hold]

theorem change_pin_eq_fail (hf : String → String) (old_pin new_pin : String) (s : ATMState)
    (u : String) (acc : AccountRec)
    (hsa : s.session_active = true) (hcu : s.current_user = some u)
    (hacc : dictFind s.accounts u = some acc)
    (hold : hashPassword hf old_pin ≠ acc.password_hash) :
    change_pin hf old_pin new_pin s = .ok ((false, "Incorrect old PIN"), s) := by
  have hses : assert_session s = .ok u := (assert_session_ok_iff s u).mpr ⟨hsa, hcu⟩
  simp [change_pin, hses, hacc, hold]

theorem change_pin_ok_true_inv (hf : String → String) (old_pin new_pin : String)
    (s : ATMState) (m : String) (s' : ATMState)
    (h : change_pin hf old_pin new_pin s = .ok ((true, m), s')) :
    ∃ u acc, s.session_active = true ∧ s.current_user = some u ∧
      dictFind s.accounts u = some acc ∧
      hashPassword hf old_pin = acc.password_hash ∧
      s' = { s with accounts := dictSet s.accounts u { acc with password_hash := hashPassword hf new_pin } } := by
  unfold change_pin at h
  split at h
  · simp at h
  · rename_i user hses
    split at h
    · simp at h
    · rename_i acc hacc
      split at h
      · simp at h
      · rename_i hold
        obtain ⟨hsa, hcu⟩ := (assert_session_ok_iff s user).mp hses
        simp only [Except.ok.injEq, Prod.mk.injEq] at h
        exact ⟨user, acc, hsa, hcu, hacc, not_not.mp hold, h.2.symm⟩

/-- The post state of `simulate_interest`. -/
def interest_post (now : Int) (rate : Rat) (s : ATMState) (u : String)
    (acc : AccountRec) : ATMState :=
  let interest := acc.saldo * rate
  let s1 : ATMState :=
    { s with accounts := dictSet s.accounts u { acc with saldo := acc.saldo + interest } }
  log_transaction s1 u
    { timestamp := now, type := "interest", amount := interest,
      balance_after := acc.saldo + interest, recipient := none }

theorem simulate_interest_eq_ok (now : Int) (rate : Rat) (s : ATMState)
    (u : String) (acc : AccountRec)
    (hsa : s.session_active = true) (hcu : s.current_user = some u)
    (hacc : dictFind s.accounts u = some acc) :
    simulate_interest now rate s =
      .ok ((true, "Interest of Rp" ++ pyFormatGrouped (acc.saldo * rate) ++ " applied."),
           interest_post now rate s u acc) := by
  have hses : assert_session s = .ok u := (assert_session_ok_iff s u).mpr ⟨hsa, hcu⟩
  have hcb : check_balance s = .ok acc.saldo := check_balance_eq s u acc hsa hcu hacc
  have hcb1 : check_balance
      { s with accounts := dictSet s.accounts u { acc with saldo := acc.saldo + acc.saldo * rate } }
      = .ok (acc.saldo + acc.saldo * rate) := by
    apply check_balance_eq _ u { acc with saldo := acc.saldo + acc.saldo * rate }
    · simp [hsa]
    · simp [hcu]
    · simp [dictFind_dictSet_self]
  simp [simulate_interest, interest_post, hses, hcb, hacc, hcb1]

theorem simulate_interest_ok_true_inv (now : Int) (rate : Rat) (s : ATMState)
    (m : String) (s' : ATMState)
    (h : simulate_interest now rate s = .ok ((true, m), s')) :
    ∃ u acc, s.session_active = true ∧ s.current_user = some u ∧
      dictFind s.accounts u = some acc ∧
      s' = interest_post now rate s u acc := by
  unfold simulate_interest at h
  split at h
  · simp at h
  · rename_i user hses
    split at h
    · simp at h
    · rename_i current_balance hcb
      dsimp only at h
      split at h
      · simp at h
      · rename_i acc hacc
        split at h
        · simp at h
        · rename_i balance_after hcb1
          obtain ⟨hsa, hcu⟩ := (assert_session_ok_iff s user).mp hses
          have hcbv : check_balance s = .ok acc.saldo :=
            check_balance_eq s user acc hsa hcu hacc
          rw [hcb] at hcbv
          have hcbe : current_balance = acc.saldo := by
            injection hcbv.symm with hh
            exact hh.symm
          subst hcbe
          have hcb1v : check_balance
              { s with accounts := dictSet s.accounts user { acc with saldo := acc.saldo + acc.saldo * rate } }
              = .ok (acc.saldo + acc.saldo * rate) := by
            apply check_balance_eq _ user { acc with saldo := acc.saldo + acc.saldo * rate }
            · simp [hsa]
            · simp [hcu]
            · simp [dictFind_dictSet_self]
          rw [hcb1] at hcb1v
          have hbav : balance_after = acc.saldo + acc.saldo * rate := by
            injection hcb1v.symm with hh
            exact hh.symm
          simp only [Except.ok.injEq, Prod.mk.injEq] at h
          refine ⟨user, acc, hsa, hcu, hacc, ?_⟩
          rw [← h.2, interest_post, hbav]

theorem simulate_interest_ok_false (now : Int) (rate : Rat) (s : ATMState)
    (m : String) (s' : ATMState)
    (h : simulate_interest now rate s = .ok ((false, m), s')) : False := by
  unfold simulate_interest at h
  split at h
  · simp at h
  · split at h
    · simp at h
    · dsimp only at h
      split at h
      · simp at h
      · split at h
        · simp at h
        · simp at h

theorem authenticate_locked (hf : String → String) (now : Int) (u p : String)
    (s : ATMState) (k : Nat) (t0 : Int)
    (hnorm : pyNormalize u = u)
    (hfa : dictFind s.failed_attempts u = some (k, t0))
    (hk : 3 ≤ k) (ht : now - t0 < 300) :
    authenticate hf now u p s = ((false, lockMessage (now - t0)), s) := by
  simp [authenticate, hnorm, hfa, hk, ht]

theorem authenticate_wrong_noentry (hf : String → String) (now : Int) (u p : String)
    (s : ATMState) (acc : AccountRec)
    (hnorm : pyNormalize u = u)
    (hfa : dictFind s.failed_attempts u = none)
    (hacc : dictFind s.accounts u = some acc)
    (hpw : hashPassword hf p ≠ acc.password_hash) :
    authenticate hf now u p s =
      ((false, failMsg 1),
       { s with failed_attempts := dictSet s.failed_attempts u (1, now) }) := by
  simp [authenticate, handle_failed_attempt, hnorm, hfa, hacc,
    beq_eq_false_iff_ne.mpr hpw]

theorem authenticate_wrong_low (hf : String → String) (now : Int) (u p : String)
    (s : ATMState) (k : Nat) (t0 : Int) (acc : AccountRec)
    (hnorm : pyNormalize u = u)
    (hfa : dictFind s.failed_attempts u = some (k, t0)) (hk : k < 3)
    (hacc : dictFind s.accounts u = some acc)
    (hpw : hashPassword hf p ≠ acc.password_hash) :
    authenticate hf now u p s =
      ((false, failMsg (k + 1)),
       { s with failed_attempts := dictSet s.failed_attempts u (k + 1, now) }) := by
  simp [authenticate, handle_failed_attempt, hnorm, hfa, not_le.mpr hk, hacc,
    beq_eq_false_iff_ne.mpr hpw]

theorem authenticate_success_noentry (hf : String → String) (now : Int) (u p : String)
    (s : ATMState) (acc : AccountRec)
    (hnorm : pyNormalize u = u)
    (hfa : dictFind s.failed_attempts u = none)
    (hacc : dictFind s.accounts u = some acc)
    (hpw : hashPassword hf p = acc.password_hash) :
    authenticate hf now u p s =
      ((true, ""),
       { s with failed_attempts := dictSet s.failed_attempts u (0, now),
                session_active := true, current_user := some u }) := by
  simp [authenticate, hnorm, hfa, hacc, hpw]

theorem authenticate_success_low (hf : String → String) (now : Int) (u p : String)
    (s : ATMState) (k : Nat) (t0 : Int) (acc : AccountRec)
    (hnorm : pyNormalize u = u)
    (hfa : dictFind s.failed_attempts u = some (k, t0)) (hk : k < 3)
    (hacc : dictFind s.accounts u = some acc)
    (hpw : hashPassword hf p = acc.password_hash) :
    authenticate hf now u p s =
      ((true, ""),
       { s with failed_attempts := dictSet s.failed_attempts u (0, now),
                session_active := true, current_user := some u }) := by
  simp [authenticate, hnorm, hfa, not_le.mpr hk, hacc, hpw]

theorem authenticate_cooldown_success (hf : String → String) (now : Int) (u p : String)
    (s : ATMState) (k : Nat) (t0 : Int) (acc : AccountRec)
    (hnorm : pyNormalize u = u)
    (hfa : dictFind s.failed_attempts u = some (k, t0)) (hk : 3 ≤ k)
    (ht : 300 ≤ now - t0)
    (hacc : dictFind s.accounts u = some acc)
    (hpw : hashPassword hf p = acc.password_hash) :
    authenticate hf now u p s =
      ((true, ""),
       { s with failed_attempts := dictSet (dictSet s.failed_attempts u (0, now)) u (0, now),
                session_active := true, current_user := some u }) := by
  simp [authenticate, hnorm, hfa, hk, not_lt.mpr ht, hacc, hpw,
    dictFind_dictSet_self]

theorem change_pin_ok_false (hf : String → String) (old_pin new_pin : String)
    (s : ATMState) (m : String) (s' : ATMState)
    (h : change_pin hf old_pin new_pin s = .ok ((false, m), s')) : s' = s := by
  unfold change_pin at h
  split at h
  · simp at h
  · split at h
    · simp at h
    · split at h
      · simp at h
        exact h.2.symm
      · simp at h

/-! ## System-wide balance accounting -/

/-- The sum of all account balances. -/
def balancesSum (l : List (String × AccountRec)) : Rat :=
  (l.map (fun p => p.2.saldo)).sum

theorem balancesSum_dictSet (l : List (String × AccountRec)) (k : String)
    (a a' : AccountRec) (h : dictFind l k = some a) :
    balancesSum (dictSet l k a') = balancesSum l - a.saldo + a'.saldo := by
  induction l with
  | nil => simp [dictFind] at h
  | cons p rest ih =>
    by_cases hp : (p.1 == k) = true
    · simp [dictFind, hp] at h
      simp [dictSet, hp, balancesSum, h]
      ring
    · simp [dictFind, hp] at h
      simp [dictSet, hp, balancesSum] at ih ⊢
      rw [ih h]
      ring

/-- Every stored balance is non-negative. -/
def allSaldoNonneg (l : List (String × AccountRec)) : Prop :=
  ∀ p ∈ l, 0 ≤ p.2.saldo

instance (l : List (String × AccountRec)) : Decidable (allSaldoNonneg l) :=
  List.decidableBAll _ l

theorem allSaldoNonneg_dictSet (l : List (String × AccountRec)) (k : String)
    (v : AccountRec) (hl : allSaldoNonneg l) (hv : 0 ≤ v.saldo) :
    allSaldoNonneg (dictSet l k v) := by
  intro p hp
  rcases mem_dictSet l k v p hp with h | h
  · rw [h]
    exact hv
  · exact hl p h

theorem allSaldoNonneg_find (l : List (String × AccountRec)) (k : String)
    (a : AccountRec) (h : dictFind l k = some a) (hl : allSaldoNonneg l) :
    0 ≤ a.saldo := by
  rcases dictFind_mem l k a h with ⟨k', hk'⟩
  exact hl (k', a) hk'

/-! ## Sequences of engine operations -/

/-- One invocation of a mutating engine operation, with its clock inputs. -/
inductive EngineOp where
  | withdrawOp (now : Int) (today : Nat) (amount : Rat)
  | depositOp (now : Int) (today : Nat) (amount : Rat)
  | transferOp (now : Int) (today : Nat) (recipient : String) (amount : Rat)
  | changePinOp (old_pin new_pin : String)
  | interestOp (now : Int) (rate : Rat)
deriving DecidableEq, Repr

/-- `true` unless the operation is an interest accrual with rate below −1
(a rate at or above −1 cannot make the credited balance negative). -/
def rateOK : EngineOp → Bool
  | .interestOp _ rate => decide (-1 ≤ rate)
  | _ => true

/-- The state after invoking one operation (on a raised exception the
state is as at the raise, which for this engine is the pre state). -/
def applyOp (hf : String → String) (op : EngineOp) (s : ATMState) : ATMState :=
  match op with
  | .withdrawOp now today amount => resState (withdraw now today amount s) s
  | .depositOp now today amount => resState (deposit now today amount s) s
  | .transferOp now today r amount => resState (transfer now today r amount s) s
  | .changePinOp old_pin new_pin => resState (change_pin hf old_pin new_pin s) s
  | .interestOp now rate => resState (simulate_interest now rate s) s

/-- Run a sequence of engine operations left to right. -/
def runOps (hf : String → String) (ops : List EngineOp) (s : ATMState) : ATMState :=
  ops.foldl (fun s op => applyOp hf op s) s

theorem transfer_post_accounts (now : Int) (today : Nat) (r : String) (amount : Rat)
    (s : ATMState) (u : String) (acc racc : AccountRec) :
    (transfer_post now today r amount s u acc racc).accounts =
      dictSet (dictSet s.accounts u { acc with saldo := acc.saldo - amount })
        r { racc with saldo := racc.saldo + amount } := by
  simp [transfer_post, withdraw_post_accounts]

theorem interest_post_accounts (now : Int) (rate : Rat) (s : ATMState)
    (u : String) (acc : AccountRec) :
    (interest_post now rate s u acc).accounts =
      dictSet s.accounts u { acc with saldo := acc.saldo + acc.saldo * rate } := by
  simp [interest_post]

theorem applyOp_nonneg (hf : String → String) (op : EngineOp) (s : ATMState)
    (h : allSaldoNonneg s.accounts) (hr : rateOK op = true) :
    allSaldoNonneg (applyOp hf op s).accounts := by
  cases op with
  | withdrawOp now today amount =>
    rcases hw : withdraw now today amount s with e | v
    · simpa [applyOp, hw, resState] using h
    · obtain ⟨⟨b, m⟩, s'⟩ := v
      cases b
      · have hs := withdraw_ok_false now today amount s m s' hw
        subst hs
        simpa [applyOp, hw, resState] using h
      · obtain ⟨u, acc, _, _, hacc, hpos, _, hbal, _, hs'⟩ :=
          withdraw_ok_true_inv now today amount s m s' hw
        simp only [applyOp, hw, resState, hs', withdraw_post_accounts]
        exact allSaldoNonneg_dictSet _ _ _ h
          (by simpa using sub_nonneg.mpr hbal)
  | depositOp now today amount =>
    rcases hw : deposit now today amount s with e | v
    · simpa [applyOp, hw, resState] using h
    · obtain ⟨⟨b, m⟩, s'⟩ := v
      cases b
      · have hs := deposit_ok_false now today amount s m s' hw
        subst hs
        simpa [applyOp, hw, resState] using h
      · obtain ⟨u, acc, _, _, hacc, hpos, hs'⟩ :=
          deposit_ok_true_inv now today amount s m s' hw
        simp only [applyOp, hw, resState, hs', deposit_post_accounts]
        refine allSaldoNonneg_dictSet _ _ _ h ?_
        have h0 : 0 ≤ acc.saldo := allSaldoNonneg_find _ _ _ hacc h
        simp only []
        positivity
  | transferOp now today r amount =>
    rcases hw : transfer now today r amount s with e | v
    · simpa [applyOp, hw, resState] using h
    · obtain ⟨⟨b, m⟩, s'⟩ := v
      cases b
      · have hs := transfer_ok_false now today r amount s m s' hw
        subst hs
        simpa [applyOp, hw, resState] using h
      · obtain ⟨u, acc, racc, _, _, hacc, hracc, _, hpos, _, hbal, _, hs'⟩ :=
          transfer_ok_true_inv now today r amount s m s' hw
        simp only [applyOp, hw, resState, hs', transfer_post_accounts]
        refine allSaldoNonneg_dictSet _ _ _ ?_ ?_
        · exact allSaldoNonneg_dictSet _ _ _ h (by simpa using sub_nonneg.mpr hbal)
        · have h0 : 0 ≤ racc.saldo := allSaldoNonneg_find _ _ _ hracc h
          simp only []
          positivity
  | changePinOp old_pin new_pin =>
    rcases hw : change_pin hf old_pin new_pin s with e | v
    · simpa [applyOp, hw, resState] using h
    · obtain ⟨⟨b, m⟩, s'⟩ := v
      cases b
      · have hs := change_pin_ok_false hf old_pin new_pin s m s' hw
        subst hs
        simpa [applyOp, hw, resState] using h
      · obtain ⟨u, acc, _, _, hacc, _, hs'⟩ :=
          change_pin_ok_true_inv hf old_pin new_pin s m s' hw
        have h0 : 0 ≤ acc.saldo := allSaldoNonneg_find _ _ _ hacc h
        simp only [applyOp, hw, resState, hs']
        exact allSaldoNonneg_dictSet _ _ _ h h0
  | interestOp now rate =>
    have hrate : -1 ≤ rate := of_decide_eq_true hr
    rcases hw : simulate_interest now rate s with e | v
    · simpa [applyOp, hw, resState] using h
    · obtain ⟨⟨b, m⟩, s'⟩ := v
      cases b
      · exact absurd hw (fun hh => simulate_interest_ok_false now rate s m s' hh)
      · obtain ⟨u, acc, _, _, hacc, hs'⟩ :=
          simulate_interest_ok_true_inv now rate s m s' hw
        have h0 : 0 ≤ acc.saldo := allSaldoNonneg_find _ _ _ hacc h
        simp only [applyOp, hw, resState, hs', interest_post_accounts]
        refine allSaldoNonneg_dictSet _ _ _ h ?_
        have : acc.saldo + acc.saldo * rate = acc.saldo * (1 + rate) := by ring
        simp only []
        rw [this]
        have h1 : (0 : Rat) ≤ 1 + rate := by linarith
        exact mul_nonneg h0 h1

theorem runOps_nonneg (hf : String → String) (ops : List EngineOp) (s : ATMState)
    (h : allSaldoNonneg s.accounts) (hr : ∀ op ∈ ops, rateOK op = true) :
    allSaldoNonneg (runOps hf ops s).accounts := by
  induction ops generalizing s with
  | nil => simpa [runOps] using h
  | cons op rest ih =>
    simp only [runOps, List.foldl_cons]
    exact ih (applyOp hf op s)
      (applyOp_nonneg hf op s h (hr op (List.mem_cons_self op rest)))
      (fun o ho => hr o (List.mem_cons_of_mem _ ho))

theorem withdraw_post_history_self (now : Int) (today : Nat) (amount : Rat)
    (s : ATMState) (u : String) (acc : AccountRec) :
    dictGet (withdraw_post now today amount s u acc).transaction_history u [] =
      dictGet s.transaction_history u [] ++
        [{ timestamp := now, type := "withdrawal", amount := amount,
           balance_after := acc.saldo - amount, recipient := none }] := by
  rw [withdraw_post_history, dictGet_dictSet_self]

theorem deposit_post_history_self (now : Int) (today : Nat) (amount : Rat)
    (s : ATMState) (u : String) (acc : AccountRec) :
    dictGet (deposit_post now today amount s u acc).transaction_history u [] =
      dictGet s.transaction_history u [] ++
        [{ timestamp := now, type := "deposit", amount := amount,
           balance_after := acc.saldo + amount, recipient := none }] := by
  rw [deposit_post_history, dictGet_dictSet_self]

theorem interest_post_history_self (now : Int) (rate : Rat) (s : ATMState)
    (u : String) (acc : AccountRec) :
    dictGet (interest_post now rate s u acc).transaction_history u [] =
      dictGet s.transaction_history u [] ++
        [{ timestamp := now, type := "interest", amount := acc.saldo * rate,
           balance_after := acc.saldo + acc.saldo * rate, recipient := none }] := by
  simp [interest_post, log_transaction, dictGet_dictSet_self]

theorem transfer_post_history_self (now : Int) (today : Nat) (r : String) (amount : Rat)
    (s : ATMState) (u : String) (acc racc : AccountRec) :
    dictGet (transfer_post now today r amount s u acc racc).transaction_history u [] =
      dictGet s.transaction_history u [] ++
        [{ timestamp := now, type := "withdrawal", amount := amount,
           balance_after := acc.saldo - amount, recipient := none },
         { timestamp := now, type := "transfer", amount := amount,
           balance_after := acc.saldo - amount, recipient := some r }] := by
  simp [transfer_post, log_transaction, withdraw_post, update_daily_total,
    dictGet_dictSet_self]

theorem transfer_post_history_other (now : Int) (today : Nat) (r : String) (amount : Rat)
    (s : ATMState) (u : String) (acc racc : AccountRec) (v : String) (hv : v ≠ u) :
    dictGet (transfer_post now today r amount s u acc racc).transaction_history v [] =
      dictGet s.transaction_history v [] := by
  simp [transfer_post, log_transaction, withdraw_post, update_daily_total,
    dictGet_dictSet_ne _ _ _ _ _ hv]

theorem get_daily_total_congr (s1 s2 : ATMState) (u tt : String) (d : Nat)
    (h : s1.daily_totals = s2.daily_totals) :
    get_daily_total s1 u tt d = get_daily_total s2 u tt d := by
  simp [get_daily_total, h]

theorem withdraw_post_daily_other_date (now : Int) (today : Nat) (amount : Rat)
    (s : ATMState) (u : String) (acc : AccountRec) (d' : Nat) (hd : d' ≠ today) :
    get_daily_total (withdraw_post now today amount s u acc) u ("withdrawal") d' =
      get_daily_total s u ("withdrawal") d' := by
  rw [get_daily_total_congr _ _ u ("withdrawal") d' (withdraw_post_daily now today amount s u acc)]
  rw [get_daily_total_update_other_date _ _ _ _ _ _ hd]
  rfl

theorem deposit_isOk (now : Int) (today : Nat) (amount : Rat) (s : ATMState)
    (u : String) (acc : AccountRec)
    (hsa : s.session_active = true) (hcu : s.current_user = some u)
    (hacc : dictFind s.accounts u = some acc) :
    isOkRes (deposit now today amount s) = true := by
  rcases le_or_lt amount 0 with h1 | h1
  · rw [deposit_eq_fail_pos now today amount s u hsa hcu h1]; rfl
  · rw [deposit_eq_ok now today amount s u acc hsa hcu hacc h1]; rfl

theorem change_pin_isOk (hf : String → String) (old_pin new_pin : String) (s : ATMState)
    (u : String) (acc : AccountRec)
    (hsa : s.session_active = true) (hcu : s.current_user = some u)
    (hacc : dictFind s.accounts u = some acc) :
    isOkRes (change_pin hf old_pin new_pin s) = true := by
  by_cases hold : hashPassword hf old_pin = acc.password_hash
  · rw [change_pin_eq_ok hf old_pin new_pin s u acc hsa hcu hacc hold]; rfl
  · rw [change_pin_eq_fail hf old_pin new_pin s u acc hsa hcu hacc hold]; rfl

theorem simulate_interest_isOk (now : Int) (rate : Rat) (s : ATMState)
    (u : String) (acc : AccountRec)
    (hsa : s.session_active = true) (hcu : s.current_user = some u)
    (hacc : dictFind s.accounts u = some acc) :
    isOkRes (simulate_interest now rate s) = true := by
  rw [simulate_interest_eq_ok now rate s u acc hsa hcu hacc]; rfl

theorem transfer_isOk (now : Int) (today : Nat) (r : String) (amount : Rat)
    (s : ATMState) (u : String) (acc : AccountRec)
    (hsa : s.session_active = true) (hcu : s.current_user = some u)
    (hacc : dictFind s.accounts u = some acc) :
    isOkRes (transfer now today r amount s) = true := by
  have hses : assert_session s = .ok u := (assert_session_ok_iff s u).mpr ⟨hsa, hcu⟩
  by_cases hrcp : (dictFind s.accounts (pyNormalize r)).isNone = true
  · simp [transfer, hses, hrcp, isOkRes]
  · by_cases hself : (pyNormalize r == u) = true
    · simp [transfer, hses, hrcp, hself, isOkRes]
    · rcases hw : withdraw now today amount s with e | v
      · have hok := withdraw_isOk now today amount s u acc hsa hcu hacc
        rw [hw] at hok
        simp [isOkRes] at hok
      · obtain ⟨⟨b, m⟩, s1⟩ := v
        cases b
        · simp [transfer, hses, hrcp, hself, hw, isOkRes]
        · obtain ⟨u0, acc0, _, hcu0, _, _, _, _, _, hs1⟩ :=
            withdraw_ok_true_inv now today amount s m s1 hw
          have huu : u0 = u := by
            rw [hcu0] at hcu
            injection hcu
          subst huu
          have hrne : pyNormalize r ≠ u0 := by
            intro hEq
            rw [hEq] at hself
            simp at hself
          rcases hR : dictFind s.accounts (pyNormalize r) with _ | racc
          · rw [hR] at hrcp
            simp at hrcp
          · have hracc1 : dictFind s1.accounts (pyNormalize r) = some racc := by
              rw [hs1, withdraw_post_accounts, dictFind_dictSet_ne _ _ _ _ hrne]
              exact hR
            have hcb3v : check_balance (update_daily_total
                { s1 with accounts := dictSet s1.accounts (pyNormalize r) { racc with saldo := racc.saldo + amount } }
                u0 ("transfer") today amount) = .ok (acc0.saldo - amount) := by
              apply check_balance_eq _ u0 { acc0 with saldo := acc0.saldo - amount }
              · simp [hs1, withdraw_post_session, hsa]
              · simp [hs1, withdraw_post_user, hcu0]
              · simp only [update_daily_total_accounts]
                rw [dictFind_dictSet_ne _ _ _ _ (Ne.symm hrne)]
                rw [hs1, withdraw_post_accounts, dictFind_dictSet_self]
            simp [transfer, hses, hrcp, hself, hw, hracc1, hcb3v, isOkRes]

theorem assert_session_fail (s : ATMState)
    (hno : s.session_active = false ∨ s.current_user = none) :
    assert_session s = .error (.securityError ("No active session")) := by
  cases hsa : s.session_active
  · cases hcu : s.current_user <;> simp [assert_session, hsa, hcu]
  · cases hcu : s.current_user
    · simp [assert_session, hsa, hcu]
    · exfalso
      rcases hno with h | h
      · rw [hsa] at h
        simp at h
      · rw [hcu] at h
        simp at h

theorem withdraw_no_session (now : Int) (today : Nat) (amount : Rat) (s : ATMState)
    (hno : s.session_active = false ∨ s.current_user = none) :
    withdraw now today amount s = .error (.securityError ("No active session")) := by
  simp [withdraw, assert_session_fail s hno]

theorem deposit_no_session (now : Int) (today : Nat) (amount : Rat) (s : ATMState)
    (hno : s.session_active = false ∨ s.current_user = none) :
    deposit now today amount s = .error (.securityError ("No active session")) := by
  simp [deposit, assert_session_fail s hno]

theorem transfer_no_session (now : Int) (today : Nat) (r : String) (amount : Rat)
    (s : ATMState) (hno : s.session_active = false ∨ s.current_user = none) :
    transfer now today r amount s = .error (.securityError ("No active session")) := by
  simp [transfer, assert_session_fail s hno]

theorem change_pin_no_session (hf : String → String) (old_pin new_pin : String)
    (s : ATMState) (hno : s.session_active = false ∨ s.current_user = none) :
    change_pin hf old_pin new_pin s = .error (.securityError ("No active session")) := by
  simp [change_pin, assert_session_fail s hno]

theorem simulate_interest_no_session (now : Int) (rate : Rat) (s : ATMState)
    (hno : s.session_active = false ∨ s.current_user = none) :
    simulate_interest now rate s = .error (.securityError ("No active session")) := by
  simp [simulate_interest, assert_session_fail s hno]

theorem check_balance_no_session (s : ATMState)
    (hno : s.session_active = false ∨ s.current_user = none) :
    check_balance s = .error (.securityError ("No active session")) := by
  simp [check_balance, assert_session_fail s hno]

theorem get_history_no_session (s : ATMState)
    (hno : s.session_active = false ∨ s.current_user = none) :
    get_transaction_history s = .error (.securityError ("No active session")) := by
  simp [get_transaction_history, assert_session_fail s hno]

/-! ## Claims -/

/-- A small active-session state used by concrete checks: one account
`ATA` with balance 100000, logged in, no history, no usage. -/
def c3_state : ATMState :=
  { accounts := [(("ATA"), { password_hash := ("h1"), saldo := 100000 }),
                 (("AISYAH"), { password_hash := ("h2"), saldo := 50000 })],
    daily_totals := [(("ATA"), [(("withdrawal"), []), (("deposit"), []), (("transfer"), [])]),
                     (("AISYAH"), [(("withdrawal"), []), (("deposit"), []), (("transfer"), [])])],
    transaction_history := [],
    failed_attempts := [],
    session_active := true,
    current_user := some ("ATA") }

/-- C3: whenever `withdraw`, `deposit`, or `transfer` returns a failure
result (success flag `false`, any error kind), the post state equals the
pre state — every balance, every daily usage counter, and every account's
transaction history are exactly as before the call; in particular a
transfer failing with insufficient funds changes neither the sender nor
the recipient. -/
theorem atm_c3_failed_ops_leave_state_unchanged :
    ∀ (now : Int) (today : Nat) (amount : Rat) (r : String) (s : ATMState)
      (m : String) (s' : ATMState),
      (withdraw now today amount s = .ok ((false, m), s') → s' = s) ∧
      (deposit now today amount s = .ok ((false, m), s') → s' = s) ∧
      (transfer now today r amount s = .ok ((false, m), s') → s' = s) :=
  fun now today amount r s m s' =>
    ⟨withdraw_ok_false now today amount s m s',
     deposit_ok_false now today amount s m s',
     transfer_ok_false now today r amount s m s'⟩

/-- C3 witness: a concrete transfer that fails with insufficient funds
(300000 exceeds the sender balance 100000) leaves the state — both the
sender's and the recipient's balances included — unchanged. -/
theorem atm_c3_witness :
    (transfer 0 0 ("AISYAH") 300000 c3_state =
      .ok ((false, ("Insufficient funds")), c3_state)) ∧ c3_state = c3_state :=
  ⟨by decide,
   (atm_c3_failed_ops_leave_state_unchanged 0 0 300000 ("AISYAH") c3_state
     ("Insufficient funds") c3_state).2.2 (by decide)⟩

/-- Active-session state for the C7 checks. -/
def c7_state : ATMState :=
  { accounts := [(("ATA"), { password_hash := ("h1"), saldo := 100000 })],
    daily_totals := [(("ATA"), [(("withdrawal"), []), (("deposit"), []), (("transfer"), [])])],
    transaction_history := [],
    failed_attempts := [],
    session_active := true,
    current_user := some ("ATA") }

/-- C7 counterexample: `-3` is not a multiple of 50,000 (its Decimal
remainder is `-3`), yet `withdraw(-3)` fails with the positivity error
kind, not `NotAMultiple` — the claim's universal statement over
non-positive amounts is false on the code. -/
theorem atm_c7_counterexample :
    decMod (-3 : Rat) 50000 ≠ 0 ∧
    withdraw 0 0 (-3) c7_state = .ok ((false, ("Amount must be positive")), c7_state) ∧
    resMsg (withdraw 0 0 (-3) c7_state) ≠ ("Amount must be in multiples of 50,000") :=
  ⟨by decide, by decide, by decide⟩

/-- C7 (amended): with an active session, every *positive* amount that is
not a multiple of 50,000 fails with the `NotAMultiple` kind (message
`Amount must be in multiples of 50,000`) and leaves the state unchanged;
a non-positive amount instead fails first with the `InvalidAmount`
positivity kind (`Amount must be positive`), also leaving the state
unchanged. -/
theorem atm_c7_amended (now : Int) (today : Nat) (amount : Rat) (s : ATMState)
    (u : String) (hsa : s.session_active = true) (hcu : s.current_user = some u) :
    (0 < amount → decMod amount 50000 ≠ 0 →
       withdraw now today amount s =
         .ok ((false, ("Amount must be in multiples of 50,000")), s)) ∧
    (amount ≤ 0 →
       withdraw now today amount s = .ok ((false, ("Amount must be positive")), s)) :=
  ⟨fun h1 h2 => withdraw_eq_fail_mult now today amount s u hsa hcu h1 h2,
   fun h1 => withdraw_eq_fail_pos now today amount s u hsa hcu h1⟩

/-- C7 witness: withdrawing 70,000 (positive, not a multiple of 50,000)
from the concrete state fails with the `NotAMultiple` message and leaves
the state unchanged. -/
theorem atm_c7_witness :
    ((0 : Rat) < 70000 ∧ decMod (70000 : Rat) 50000 ≠ 0) ∧
    withdraw 0 0 70000 c7_state =
      .ok ((false, ("Amount must be in multiples of 50,000")), c7_state) :=
  ⟨⟨by decide, by decide⟩,
   (atm_c7_amended 0 0 70000 c7_state ("ATA") (by decide) (by decide)).1
     (by decide) (by decide)⟩

/-- C8 counterexample: invoking `withdraw` with no active session does not
return a typed result value — it raises the `SecurityError` exception
(the `.error` channel of the embedding), contradicting the claim that
session errors are "returned to the caller as a typed result value, never
raised/thrown". -/
theorem atm_c8_counterexample :
    withdraw 0 0 50000 (initState id) = .error (.securityError ("No active session")) ∧
    isOkRes (withdraw 0 0 50000 (initState id)) = false ∧
    isSecurityError (withdraw 0 0 50000 (initState id)) = true :=
  ⟨by decide, by decide, by decide⟩

/-- C8 (amended): with an active session bound to an existing account,
every engine operation returns a typed `(success, message)` result value
and never raises; the one exception is the session check itself:
without an active session every engine operation — `withdraw`, `deposit`,
`transfer`, `changePin`, `accrueInterest`, `checkBalance`, `getHistory` —
raises a `SecurityError` exception (`No active session`) rather than
returning a result, and the interactive caller catches it. -/
theorem atm_c8_amended :
    (∀ (hf : String → String) (now : Int) (today : Nat) (amount rate : Rat)
       (r old_pin new_pin : String) (s : ATMState) (u : String) (acc : AccountRec),
       s.session_active = true → s.current_user = some u →
       dictFind s.accounts u = some acc →
       isOkRes (withdraw now today amount s) = true ∧
       isOkRes (deposit now today amount s) = true ∧
       isOkRes (transfer now today r amount s) = true ∧
       isOkRes (change_pin hf old_pin new_pin s) = true ∧
       isOkRes (simulate_interest now rate s) = true) ∧
    (∀ (hf : String → String) (now : Int) (today : Nat) (amount rate : Rat)
       (r old_pin new_pin : String) (s : ATMState),
       s.session_active = false ∨ s.current_user = none →
       withdraw now today amount s = .error (.securityError ("No active session")) ∧
       deposit now today amount s = .error (.securityError ("No active session")) ∧
       transfer now today r amount s = .error (.securityError ("No active session")) ∧
       change_pin hf old_pin new_pin s = .error (.securityError ("No active session")) ∧
       simulate_interest now rate s = .error (.securityError ("No active session")) ∧
       check_balance s = .error (.securityError ("No active session")) ∧
       get_transaction_history s = .error (.securityError ("No active session"))) := by
  constructor
  · intro hf now today amount rate r old_pin new_pin s u acc hsa hcu hacc
    exact ⟨withdraw_isOk now today amount s u acc hsa hcu hacc,
           deposit_isOk now today amount s u acc hsa hcu hacc,
           transfer_isOk now today r amount s u acc hsa hcu hacc,
           change_pin_isOk hf old_pin new_pin s u acc hsa hcu hacc,
           simulate_interest_isOk now rate s u acc hsa hcu hacc⟩
  · intro hf now today amount rate r old_pin new_pin s hno
    exact ⟨withdraw_no_session now today amount s hno,
           deposit_no_session now today amount s hno,
           transfer_no_session now today r amount s hno,
           change_pin_no_session hf old_pin new_pin s hno,
           simulate_interest_no_session now rate s hno,
           check_balance_no_session s hno,
           get_history_no_session s hno⟩

/-- Active-session state for the C8 witness. -/
def c8_state : ATMState :=
  { accounts := [(("ATA"), { password_hash := ("h1"), saldo := 100000 })],
    daily_totals := [(("ATA"), [(("withdrawal"), []), (("deposit"), []), (("transfer"), [])])],
    transaction_history := [],
    failed_attempts := [],
    session_active := true,
    current_user := some ("ATA") }

/-- C8 witness: with a session, a concrete withdrawal is returned as a
result; without one (the freshly initialized system), it raises. -/
theorem atm_c8_witness :
    c8_state.session_active = true ∧
    isOkRes (withdraw 0 0 50000 c8_state) = true ∧
    (initState id).session_active = false ∧
    deposit 0 0 100 (initState id) = .error (.securityError ("No active session")) :=
  ⟨by decide,
   (atm_c8_amended.1 id 0 0 50000 0 ("X") ("a") ("b") c8_state ("ATA")
     { password_hash := ("h1"), saldo := 100000 } (by decide) (by decide) (by decide)).1,
   by decide,
   (atm_c8_amended.2 id 0 0 100 0 ("X") ("a") ("b") (initState id)
     (Or.inl (by decide))).2.1⟩

/-- Two-account active-session state for the C1 checks: sender `ATA`
(balance 100000, logged in) and recipient `AISYAH` (balance 50000). -/
def c1_state : ATMState :=
  { accounts := [(("ATA"), { password_hash := ("h1"), saldo := 100000 }),
                 (("AISYAH"), { password_hash := ("h2"), saldo := 50000 })],
    daily_totals := [(("ATA"), [(("withdrawal"), []), (("deposit"), []), (("transfer"), [])]),
                     (("AISYAH"), [(("withdrawal"), []), (("deposit"), []), (("transfer"), [])])],
    transaction_history := [],
    failed_attempts := [],
    session_active := true,
    current_user := some ("ATA") }

/-- C1 counterexample: a successful `transfer` appends TWO records to the
sender's history (the internal sub-withdraw logs a `withdrawal` record
before the `transfer` record is logged), not exactly one as claimed. -/
theorem atm_c1_counterexample :
    resOk (transfer 0 0 ("AISYAH") 50000 c1_state) = true ∧
    (dictGet c1_state.transaction_history ("ATA") []).length = 0 ∧
    (dictGet (resState (transfer 0 0 ("AISYAH") 50000 c1_state) c1_state).transaction_history
      ("ATA") []).length = 2 ∧
    ¬ (dictGet (resState (transfer 0 0 ("AISYAH") 50000 c1_state) c1_state).transaction_history
      ("ATA") []).length = 1 :=
  ⟨by decide, by decide, by decide, by decide⟩

/-- C1 (amended): a successful `withdraw`, `deposit`, or `accrueInterest`
appends exactly one record (of kind `withdrawal` / `deposit` / `interest`)
to the authenticated account's history; `changePin` appends none; a
successful `transfer(recipientId, amount)` appends exactly TWO records on
the authenticated (sender) account only — first the `withdrawal` record
of the internal sub-withdraw, then the `transfer` record carrying
`counterparty = recipientId` — and no record on any other account. -/
theorem atm_c1_amended :
    (∀ (now : Int) (today : Nat) (amount : Rat) (s : ATMState) (u : String)
       (acc : AccountRec),
       resOk (withdraw now today amount s) = true →
       s.current_user = some u → dictFind s.accounts u = some acc →
       dictGet (resState (withdraw now today amount s) s).transaction_history u [] =
         dictGet s.transaction_history u [] ++
           [{ timestamp := now, type := ("withdrawal"), amount := amount,
              balance_after := acc.saldo - amount, recipient := none }]) ∧
    (∀ (now : Int) (today : Nat) (amount : Rat) (s : ATMState) (u : String)
       (acc : AccountRec),
       resOk (deposit now today amount s) = true →
       s.current_user = some u → dictFind s.accounts u = some acc →
       dictGet (resState (deposit now today amount s) s).transaction_history u [] =
         dictGet s.transaction_history u [] ++
           [{ timestamp := now, type := ("deposit"), amount := amount,
              balance_after := acc.saldo + amount, recipient := none }]) ∧
    (∀ (now : Int) (rate : Rat) (s : ATMState) (u : String) (acc : AccountRec),
       resOk (simulate_interest now rate s) = true →
       s.current_user = some u → dictFind s.accounts u = some acc →
       dictGet (resState (simulate_interest now rate s) s).transaction_history u [] =
         dictGet s.transaction_history u [] ++
           [{ timestamp := now, type := ("interest"), amount := acc.saldo * rate,
              balance_after := acc.saldo + acc.saldo * rate, recipient := none }]) ∧
    (∀ (hf : String → String) (old_pin new_pin : String) (s : ATMState),
       resOk (change_pin hf old_pin new_pin s) = true →
       (resState (change_pin hf old_pin new_pin s) s).transaction_history =
         s.transaction_history) ∧
    (∀ (now : Int) (today : Nat) (r : String) (amount : Rat) (s : ATMState)
       (u : String) (acc : AccountRec),
       resOk (transfer now today r amount s) = true →
       s.current_user = some u → dictFind s.accounts u = some acc →
       (dictGet (resState (transfer now today r amount s) s).transaction_history u [] =
         dictGet s.transaction_history u [] ++
           [{ timestamp := now, type := ("withdrawal"), amount := amount,
              balance_after := acc.saldo - amount, recipient := none },
            { timestamp := now, type := ("transfer"), amount := amount,
              balance_after := acc.saldo - amount, recipient := some (pyNormalize r) }]) ∧
       (∀ v, v ≠ u →
         dictGet (resState (transfer now today r amount s) s).transaction_history v [] =
           dictGet s.transaction_history v [])) := by
  refine ⟨?_, ?_, ?_, ?_, ?_⟩
  · intro now today amount s u acc hok hcu hacc
    rcases hw : withdraw now today amount s with e | v
    · rw [hw] at hok
      simp [resOk] at hok
    · obtain ⟨⟨b, m⟩, s'⟩ := v
      cases b
      · rw [hw] at hok
        simp [resOk] at hok
      · obtain ⟨u0, acc0, _, hcu0, hacc0, _, _, _, _, hs'⟩ :=
          withdraw_ok_true_inv now today amount s m s' hw
        have huu : u0 = u := by
          rw [hcu0] at hcu
          injection hcu
        subst huu
        have hae : acc0 = acc := by
          rw [hacc0] at hacc
          injection hacc
        subst hae
        simp only [resState, hs']
        exact withdraw_post_history_self now today amount s u0 acc0
  · intro now today amount s u acc hok hcu hacc
    rcases hw : deposit now today amount s with e | v
    · rw [hw] at hok
      simp [resOk] at hok
    · obtain ⟨⟨b, m⟩, s'⟩ := v
      cases b
      · rw [hw] at hok
        simp [resOk] at hok
      · obtain ⟨u0, acc0, _, hcu0, hacc0, _, hs'⟩ :=
          deposit_ok_true_inv now today amount s m s' hw
        have huu : u0 = u := by
          rw [hcu0] at hcu
          injection hcu
        subst huu
        have hae : acc0 = acc := by
          rw [hacc0] at hacc
          injection hacc
        subst hae
        simp only [resState, hs']
        exact deposit_post_history_self now today amount s u0 acc0
  · intro now rate s u acc hok hcu hacc
    rcases hw : simulate_interest now rate s with e | v
    · rw [hw] at hok
      simp [resOk] at hok
    · obtain ⟨⟨b, m⟩, s'⟩ := v
      cases b
      · rw [hw] at hok
        simp [resOk] at hok
      · obtain ⟨u0, acc0, _, hcu0, hacc0, hs'⟩ :=
          simulate_interest_ok_true_inv now rate s m s' hw
        have huu : u0 = u := by
          rw [hcu0] at hcu
          injection hcu
        subst huu
        have hae : acc0 = acc := by
          rw [hacc0] at hacc
          injection hacc
        subst hae
        simp only [resState, hs']
        exact interest_post_history_self now rate s u0 acc0
  · intro hf old_pin new_pin s hok
    rcases hw : change_pin hf old_pin new_pin s with e | v
    · rw [hw] at hok
      simp [resOk] at hok
    · obtain ⟨⟨b, m⟩, s'⟩ := v
      cases b
      · rw [hw] at hok
        simp [resOk] at hok
      · obtain ⟨u0, acc0, _, _, _, _, hs'⟩ :=
          change_pin_ok_true_inv hf old_pin new_pin s m s' hw
        simp only [resState, hs']
  · intro now today r amount s u acc hok hcu hacc
    rcases hw : transfer now today r amount s with e | v
    · rw [hw] at hok
      simp [resOk] at hok
    · obtain ⟨⟨b, m⟩, s'⟩ := v
      cases b
      · rw [hw] at hok
        simp [resOk] at hok
      · obtain ⟨u0, acc0, racc, _, hcu0, hacc0, _, _, _, _, _, _, hs'⟩ :=
          transfer_ok_true_inv now today r amount s m s' hw
        have huu : u0 = u := by
          rw [hcu0] at hcu
          injection hcu
        subst huu
        have hae : acc0 = acc := by
          rw [hacc0] at hacc
          injection hacc
        subst hae
        simp only [resState, hs']
        exact ⟨transfer_post_history_self now today (pyNormalize r) amount s u0 acc0 racc,
               fun v hv => transfer_post_history_other now today (pyNormalize r) amount
                 s u0 acc0 racc v hv⟩

/-- C1 witness: the concrete successful transfer of the counterexample
state yields exactly the two explicit records on the sender. -/
theorem atm_c1_witness :
    resOk (transfer 2 0 ("AISYAH") 50000 c1_state) = true ∧
    dictGet (resState (transfer 2 0 ("AISYAH") 50000 c1_state) c1_state).transaction_history
        ("ATA") [] =
      dictGet c1_state.transaction_history ("ATA") [] ++
        [{ timestamp := 2, type := ("withdrawal"), amount := 50000,
           balance_after := 50000, recipient := none },
         { timestamp := 2, type := ("transfer"), amount := 50000,
           balance_after := 50000, recipient := some (pyNormalize ("AISYAH")) }] :=
  ⟨by decide,
   by
    have h := (atm_c1_amended.2.2.2.2 2 0 ("AISYAH") 50000 c1_state ("ATA")
      { password_hash := ("h1"), saldo := 100000 } (by decide) (by decide) (by decide)).1
    simpa using h⟩

/-- Active-session state for the C2 counterexample. -/
def c2_state : ATMState :=
  { accounts := [(("ATA"), { password_hash := ("h1"), saldo := 100000 })],
    daily_totals := [(("ATA"), [(("withdrawal"), []), (("deposit"), []), (("transfer"), [])])],
    transaction_history := [],
    failed_attempts := [],
    session_active := true,
    current_user := some ("ATA") }

/-- C2 counterexample: starting from a non-negative balance (100000),
`simulate_interest` with the caller-supplied rate −2 *succeeds* and drives
the balance to −100000: the non-negativity invariant does not hold for
every caller-supplied interest rate. -/
theorem atm_c2_counterexample :
    allSaldoNonneg c2_state.accounts ∧
    resOk (simulate_interest 0 (-2) c2_state) = true ∧
    dictFind (resState (simulate_interest 0 (-2) c2_state) c2_state).accounts ("ATA") =
      some { password_hash := ("h1"), saldo := -100000 } ∧
    ¬ allSaldoNonneg (resState (simulate_interest 0 (-2) c2_state) c2_state).accounts :=
  ⟨by decide, by decide, by decide, by decide⟩

/-- C2 (amended): for every account state whose balances are all
non-negative, any sequence of engine operations (`withdraw`, `deposit`,
`transfer`, `changePin`, `accrueInterest`) — successful or failing —
preserves non-negativity of every balance, PROVIDED every interest accrual
in the sequence uses a rate ≥ −1; the unrestricted claim is refuted by
the counterexample with rate −2. -/
theorem atm_c2_amended (hf : String → String) (ops : List EngineOp) (s : ATMState)
    (h : allSaldoNonneg s.accounts) (hr : ops.all rateOK = true) :
    allSaldoNonneg (runOps hf ops s).accounts :=
  runOps_nonneg hf ops s h (by
    intro op hop
    exact List.all_eq_true.mp hr op hop)

/-- Active-session state for the C2 witness. -/
def c2w_state : ATMState :=
  { accounts := [(("ATA"), { password_hash := ("h1"), saldo := 100000 })],
    daily_totals := [(("ATA"), [(("withdrawal"), []), (("deposit"), []), (("transfer"), [])])],
    transaction_history := [],
    failed_attempts := [],
    session_active := true,
    current_user := some ("ATA") }

/-- Operation sequence for the C2 witness: a deposit, a withdrawal, and an
interest accrual at the extreme admissible rate −1. -/
def c2w_ops : List EngineOp :=
  [EngineOp.depositOp 0 0 500, EngineOp.withdrawOp 1 0 50000, EngineOp.interestOp 2 (-1)]

/-- C2 witness: the concrete sequence keeps every balance non-negative. -/
theorem atm_c2_witness :
    allSaldoNonneg c2w_state.accounts ∧ c2w_ops.all rateOK = true ∧
    allSaldoNonneg (runOps id c2w_ops c2w_state).accounts :=
  ⟨by decide, by decide, atm_c2_amended id c2w_ops c2w_state (by decide) (by decide)⟩

/-- C4: for every successful `transfer(recipientId, amount)`, the sum of
all account balances is unchanged; the sender's balance decreases by
`amount`, the recipient's increases by `amount`, and every other account's
record is untouched. -/
theorem atm_c4_transfer_conserves_money (now : Int) (today : Nat) (r : String)
    (amount : Rat) (s : ATMState) (u : String) (acc : AccountRec)
    (hok : resOk (transfer now today r amount s) = true)
    (hcu : s.current_user = some u) (hacc : dictFind s.accounts u = some acc) :
    balancesSum (resState (transfer now today r amount s) s).accounts =
      balancesSum s.accounts ∧
    dictFind (resState (transfer now today r amount s) s).accounts u =
      some { acc with saldo := acc.saldo - amount } ∧
    (∀ racc, dictFind s.accounts (pyNormalize r) = some racc →
       dictFind (resState (transfer now today r amount s) s).accounts (pyNormalize r) =
         some { racc with saldo := racc.saldo + amount }) ∧
    (∀ v, v ≠ u → v ≠ pyNormalize r →
       dictFind (resState (transfer now today r amount s) s).accounts v =
         dictFind s.accounts v) := by
  rcases hw : transfer now today r amount s with e | v
  · rw [hw] at hok
    simp [resOk] at hok
  · obtain ⟨⟨b, m⟩, s'⟩ := v
    cases b
    · rw [hw] at hok
      simp [resOk] at hok
    · obtain ⟨u0, acc0, racc0, _, hcu0, hacc0, hracc0, hrne, _, _, _, _, hs'⟩ :=
        transfer_ok_true_inv now today r amount s m s' hw
      have huu : u0 = u := by
        rw [hcu0] at hcu
        injection hcu
      subst huu
      have hae : acc0 = acc := by
        rw [hacc0] at hacc
        injection hacc
      subst hae
      simp only [resState, hs', transfer_post_accounts]
      have hfind1 : dictFind (dictSet s.accounts u0 { acc0 with saldo := acc0.saldo - amount })
          (pyNormalize r) = some racc0 := by
        rw [dictFind_dictSet_ne _ _ _ _ hrne]
        exact hracc0
      refine ⟨?_, ?_, ?_, ?_⟩
      · rw [balancesSum_dictSet _ _ racc0 _ hfind1,
          balancesSum_dictSet _ _ acc0 _ hacc0]
        ring
      · rw [dictFind_dictSet_ne _ _ _ _ (Ne.symm hrne), dictFind_dictSet_self]
      · intro racc hracc
        have hre : racc = racc0 := by
          rw [hracc0] at hracc
          injection hracc with hh
          exact hh.symm
        subst hre
        rw [dictFind_dictSet_self]
      · intro v hvu hvr
        rw [dictFind_dictSet_ne _ _ _ _ hvr, dictFind_dictSet_ne _ _ _ _ hvu]

/-- Two-account state for the C4 witness. -/
def c4_state : ATMState :=
  { accounts := [(("ATA"), { password_hash := ("h1"), saldo := 100000 }),
                 (("AISYAH"), { password_hash := ("h2"), saldo := 50000 })],
    daily_totals := [(("ATA"), [(("withdrawal"), []), (("deposit"), []), (("transfer"), [])]),
                     (("AISYAH"), [(("withdrawal"), []), (("deposit"), []), (("transfer"), [])])],
    transaction_history := [],
    failed_attempts := [],
    session_active := true,
    current_user := some ("ATA") }

/-- C4 witness: the concrete transfer of 50000 from `ATA` to `AISYAH`
succeeds and conserves the system-wide sum of balances. -/
theorem atm_c4_witness :
    resOk (transfer 0 0 ("AISYAH") 50000 c4_state) = true ∧
    balancesSum (resState (transfer 0 0 ("AISYAH") 50000 c4_state) c4_state).accounts =
      balancesSum c4_state.accounts :=
  ⟨by decide,
   (atm_c4_transfer_conserves_money 0 0 ("AISYAH") 50000 c4_state ("ATA")
     { password_hash := ("h1"), saldo := 100000 } (by decide) (by decide) (by decide)).1⟩

/-- The state component of an `authenticate` call. -/
def authState (hf : String → String) (now : Int) (u p : String) (s : ATMState) : ATMState :=
  (authenticate hf now u p s).2

/-- C5: for an existing, unlocked account: three consecutive failed
authentications leave the failure counter at 3 with the timestamp of the
third failure; a fourth attempt, with ANY password, made less than 300
seconds after the third failure fails with the lockout message and
changes nothing (the credential is never checked); once 300 seconds have
elapsed, an attempt with the correct credential succeeds and the counter
is reset to zero. -/
theorem atm_c5_lockout_cycle (hf : String → String) (u pin wrong p : String)
    (s : ATMState) (acc : AccountRec) (t1 t2 t3 t4 t5 : Int)
    (hnorm : pyNormalize u = u)
    (hacc : dictFind s.accounts u = some acc)
    (hpin : acc.password_hash = hashPassword hf pin)
    (hwrong : hashPassword hf wrong ≠ hashPassword hf pin)
    (hfa : dictFind s.failed_attempts u = none) :
    (authenticate hf t1 u wrong s).1.1 = false ∧
    (authenticate hf t2 u wrong (authState hf t1 u wrong s)).1.1 = false ∧
    (authenticate hf t3 u wrong (authState hf t2 u wrong (authState hf t1 u wrong s))).1.1 = false ∧
    dictFind (authState hf t3 u wrong (authState hf t2 u wrong
      (authState hf t1 u wrong s))).failed_attempts u = some (3, t3) ∧
    (t4 - t3 < 300 →
      authenticate hf t4 u p (authState hf t3 u wrong (authState hf t2 u wrong
        (authState hf t1 u wrong s))) =
      ((false, lockMessage (t4 - t3)),
       authState hf t3 u wrong (authState hf t2 u wrong (authState hf t1 u wrong s)))) ∧
    (300 ≤ t5 - t3 →
      (authenticate hf t5 u pin (authState hf t3 u wrong (authState hf t2 u wrong
        (authState hf t1 u wrong s)))).1.1 = true ∧
      (authenticate hf t5 u pin (authState hf t3 u wrong (authState hf t2 u wrong
        (authState hf t1 u wrong s)))).2.session_active = true ∧
      (authenticate hf t5 u pin (authState hf t3 u wrong (authState hf t2 u wrong
        (authState hf t1 u wrong s)))).2.current_user = some u ∧
      dictFind (authenticate hf t5 u pin (authState hf t3 u wrong (authState hf t2 u wrong
        (authState hf t1 u wrong s)))).2.failed_attempts u = some (0, t5)) := by
  have hwrongA : hashPassword hf wrong ≠ acc.password_hash := by
    rw [hpin]
    exact hwrong
  have h1 : authenticate hf t1 u wrong s =
      ((false, failMsg 1),
       { s with failed_attempts := dictSet s.failed_attempts u (1, t1) }) :=
    authenticate_wrong_noentry hf t1 u wrong s acc hnorm hfa hacc hwrongA
  have h2 : authenticate hf t2 u wrong
      { s with failed_attempts := dictSet s.failed_attempts u (1, t1) } =
      ((false, failMsg 2),
       { s with failed_attempts := dictSet (dictSet s.failed_attempts u (1, t1)) u (2, t2) }) := by
    have hh := authenticate_wrong_low hf t2 u wrong
      { s with failed_attempts := dictSet s.failed_attempts u (1, t1) } 1 t1 acc hnorm
      (dictFind_dictSet_self _ _ _) (by norm_num) hacc hwrongA
    simpa using hh
  have h3 : authenticate hf t3 u wrong
      { s with failed_attempts := dictSet (dictSet s.failed_attempts u (1, t1)) u (2, t2) } =
      ((false, failMsg 3),
       { s with failed_attempts := dictSet (dictSet (dictSet s.failed_attempts u (1, t1)) u (2, t2)) u (3, t3) }) := by
    have hh := authenticate_wrong_low hf t3 u wrong
      { s with failed_attempts := dictSet (dictSet s.failed_attempts u (1, t1)) u (2, t2) }
      2 t2 acc hnorm (dictFind_dictSet_self _ _ _) (by norm_num) hacc hwrongA
    simpa using hh
  have hS1 : authState hf t1 u wrong s =
      { s with failed_attempts := dictSet s.failed_attempts u (1, t1) } := by
    rw [authState, h1]
  have hS2 : authState hf t2 u wrong (authState hf t1 u wrong s) =
      { s with failed_attempts := dictSet (dictSet s.failed_attempts u (1, t1)) u (2, t2) } := by
    rw [hS1, authState, h2]
  have hS3 : authState hf t3 u wrong (authState hf t2 u wrong (authState hf t1 u wrong s)) =
      { s with failed_attempts := dictSet (dictSet (dictSet s.failed_attempts u (1, t1)) u (2, t2)) u (3, t3) } := by
    rw [hS2, authState, h3]
  have hfa3 : dictFind ({ s with failed_attempts := dictSet (dictSet (dictSet s.failed_attempts u (1, t1)) u (2, t2)) u (3, t3) } : ATMState).failed_attempts u = some (3, t3) :=
    dictFind_dictSet_self _ _ _
  refine ⟨?_, ?_, ?_, ?_, ?_, ?_⟩
  · rw [h1]
  · rw [hS1, h2]
  · rw [hS2, h3]
  · rw [hS3]
    exact hfa3
  · intro ht4
    rw [hS3]
    exact authenticate_locked hf t4 u p _ 3 t3 hnorm hfa3 (le_refl 3) ht4
  · intro ht5
    rw [hS3]
    have h5 := authenticate_cooldown_success hf t5 u pin
      { s with failed_attempts := dictSet (dictSet (dictSet s.failed_attempts u (1, t1)) u (2, t2)) u (3, t3) }
      3 t3 acc hnorm hfa3 (le_refl 3) ht5 hacc hpin.symm
    rw [h5]
    exact ⟨rfl, rfl, rfl, dictFind_dictSet_self _ _ _⟩

/-- Account state for the C5 witness: user `ATA` with PIN digest `8830`
(the abstract digest is the identity on stripped strings here). -/
def c5_state : ATMState :=
  { accounts := [(("ATA"), { password_hash := hashPassword id ("8830"), saldo := 100000 })],
    daily_totals := [(("ATA"), [(("withdrawal"), []), (("deposit"), []), (("transfer"), [])])],
    transaction_history := [],
    failed_attempts := [],
    session_active := false,
    current_user := none }

/-- C5 witness: three wrong PINs at times 0, 10, 20 lock `ATA`; at time
100 (80 s later) even the CORRECT PIN is rejected with the lock message;
at time 400 (380 s later) the correct PIN succeeds and resets the
counter. -/
theorem atm_c5_witness :
    (authenticate id 0 ("ATA") ("0000") c5_state).1.1 = false ∧
    dictFind (authState id 20 ("ATA") ("0000") (authState id 10 ("ATA") ("0000")
      (authState id 0 ("ATA") ("0000") c5_state))).failed_attempts ("ATA") = some (3, 20) ∧
    authenticate id 100 ("ATA") ("8830") (authState id 20 ("ATA") ("0000")
      (authState id 10 ("ATA") ("0000") (authState id 0 ("ATA") ("0000") c5_state))) =
      ((false, lockMessage 80),
       authState id 20 ("ATA") ("0000") (authState id 10 ("ATA") ("0000")
         (authState id 0 ("ATA") ("0000") c5_state))) ∧
    (authenticate id 400 ("ATA") ("8830") (authState id 20 ("ATA") ("0000")
      (authState id 10 ("ATA") ("0000") (authState id 0 ("ATA") ("0000") c5_state)))).1.1 = true :=
  ⟨(atm_c5_lockout_cycle id ("ATA") ("8830") ("0000") ("8830") c5_state
      { password_hash := ("8830"), saldo := 100000 } 0 10 20 100 400
      (by decide) (by decide) (by decide) (by decide) (by decide)).1,
   (atm_c5_lockout_cycle id ("ATA") ("8830") ("0000") ("8830") c5_state
      { password_hash := ("8830"), saldo := 100000 } 0 10 20 100 400
      (by decide) (by decide) (by decide) (by decide) (by decide)).2.2.2.1,
   (atm_c5_lockout_cycle id ("ATA") ("8830") ("0000") ("8830") c5_state
      { password_hash := ("8830"), saldo := 100000 } 0 10 20 100 400
      (by decide) (by decide) (by decide) (by decide) (by decide)).2.2.2.2.1 (by decide),
   ((atm_c5_lockout_cycle id ("ATA") ("8830") ("0000") ("8830") c5_state
      { password_hash := ("8830"), saldo := 100000 } 0 10 20 100 400
      (by decide) (by decide) (by decide) (by decide) (by decide)).2.2.2.2.2 (by decide)).1⟩

/-- C6: with an active session, an existing account, and a positive
multiple of 50,000 not exceeding the balance: `withdraw` fails with
`DailyLimitExceeded` exactly when today's accumulated withdrawal usage
plus the amount exceeds 5,000,000 (returning the pre state unchanged),
and succeeds otherwise; moreover a successful withdrawal recorded on one
date leaves the usage of every other date unchanged, so usage on one
date does not count against a later date. -/
theorem atm_c6_daily_limit (now : Int) (today d' : Nat) (amount : Rat) (s : ATMState)
    (u : String) (acc : AccountRec)
    (hsa : s.session_active = true) (hcu : s.current_user = some u)
    (hacc : dictFind s.accounts u = some acc)
    (hpos : 0 < amount) (hmult : decMod amount 50000 = 0) (hbal : amount ≤ acc.saldo) :
    (5000000 < get_daily_total s u ("withdrawal") today + amount →
       withdraw now today amount s =
         .ok ((false, ("Daily withdrawal limit (Rp5,000,000) exceeded")), s)) ∧
    (get_daily_total s u ("withdrawal") today + amount ≤ 5000000 →
       resOk (withdraw now today amount s) = true) ∧
    (resOk (withdraw now today amount s) = true → d' ≠ today →
       get_daily_total (resState (withdraw now today amount s) s) u ("withdrawal") d' =
         get_daily_total s u ("withdrawal") d') := by
  refine ⟨?_, ?_, ?_⟩
  · intro h4
    exact withdraw_eq_fail_daily now today amount s u acc hsa hcu hacc hpos hmult hbal h4
  · intro h4
    rw [withdraw_eq_ok now today amount s u acc hsa hcu hacc hpos hmult hbal h4]
    rfl
  · intro hok hd
    rcases hw : withdraw now today amount s with e | v
    · rw [hw] at hok
      simp [resOk] at hok
    · obtain ⟨⟨b, m⟩, s'⟩ := v
      cases b
      · rw [hw] at hok
        simp [resOk] at hok
      · obtain ⟨u0, acc0, _, hcu0, _, _, _, _, _, hs'⟩ :=
          withdraw_ok_true_inv now today amount s m s' hw
        have huu : u0 = u := by
          rw [hcu0] at hcu
          injection hcu
        subst huu
        simp only [resState, hs']
        exact withdraw_post_daily_other_date now today amount s u0 acc0 d' hd

/-- State for the C6 witness: `ATA` holds 10,000,000 and has already
withdrawn a total of 5,000,000 on date 0. -/
def c6_state : ATMState :=
  { accounts := [(("ATA"), { password_hash := ("h1"), saldo := 10000000 })],
    daily_totals := [(("ATA"), [(("withdrawal"), [(0, 5000000)]), (("deposit"), []), (("transfer"), [])])],
    transaction_history := [],
    failed_attempts := [],
    session_active := true,
    current_user := some ("ATA") }

/-- C6 witness: after 5,000,000 of usage on date 0, withdrawing 50,000 on
date 0 fails with the daily-limit message, while the same withdrawal on
date 1 succeeds — and that success leaves date 0's usage at 5,000,000. -/
theorem atm_c6_witness :
    get_daily_total c6_state ("ATA") ("withdrawal") 0 = 5000000 ∧
    withdraw 0 0 50000 c6_state =
      .ok ((false, ("Daily withdrawal limit (Rp5,000,000) exceeded")), c6_state) ∧
    resOk (withdraw 0 1 50000 c6_state) = true ∧
    get_daily_total (resState (withdraw 0 1 50000 c6_state) c6_state)
      ("ATA") ("withdrawal") 0 = 5000000 :=
  ⟨by decide,
   (atm_c6_daily_limit 0 0 1 50000 c6_state ("ATA")
     { password_hash := ("h1"), saldo := 10000000 }
     (by decide) (by decide) (by decide) (by decide) (by decide) (by decide)).1 (by decide),
   (atm_c6_daily_limit 0 1 0 50000 c6_state ("ATA")
     { password_hash := ("h1"), saldo := 10000000 }
     (by decide) (by decide) (by decide) (by decide) (by decide) (by decide)).2.1 (by decide),
   by
    have hh := (atm_c6_daily_limit 0 1 0 50000 c6_state ("ATA")
      { password_hash := ("h1"), saldo := 10000000 }
      (by decide) (by decide) (by decide) (by decide) (by decide) (by decide)).2.2
      (by decide) (by decide)
    rw [hh]
    decide⟩

/-- Logged-in state for the C9 counterexample: `ATA`'s stored hash is the
digest of `8830` (the abstract digest is the identity here, applied to
the stripped PIN exactly as `_hash_password` does). -/
def c9_state : ATMState :=
  { accounts := [(("ATA"), { password_hash := hashPassword id ("8830"), saldo := 100000 })],
    daily_totals := [(("ATA"), [(("withdrawal"), []), (("deposit"), []), (("transfer"), [])])],
    transaction_history := [],
    failed_attempts := [(("ATA"), (0, 0))],
    session_active := true,
    current_user := some ("ATA") }

/-- C9 counterexample: changing the PIN from `8830` to `␣8830` (a leading
space) satisfies the claim's hypothesis `newCredential ≠ oldCredential`,
and `change_pin` succeeds — but because `_hash_password` strips its input
before hashing, the stored digest is unchanged, and a subsequent
`authenticate` with the OLD credential still SUCCEEDS instead of failing
with `WrongCredential`. -/
theorem atm_c9_counterexample :
    ("8830" : String) ≠ (" 8830") ∧
    resOk (change_pin id ("8830") (" 8830") c9_state) = true ∧
    (authenticate id 5 ("ATA") ("8830")
      (resState (change_pin id ("8830") (" 8830") c9_state) c9_state)).1.1 = true :=
  ⟨by decide, by decide, by decide⟩

/-- The state after a successful PIN change for `u` (record was `acc`). -/
def pin_changed_state (hf : String → String) (new_pin : String) (s : ATMState)
    (u : String) (acc : AccountRec) : ATMState :=
  { s with accounts := dictSet s.accounts u { acc with password_hash := hashPassword hf new_pin } }

/-- C9 (amended): for an active session where the digest of the old
credential matches the stored hash and the digest of the new credential
DIFFERS from the digest of the old one (for a collision-free digest this
means the trimmed credentials differ — plain inequality of the raw
strings is NOT enough, see the counterexample): `changePin` succeeds,
replaces the stored hash, and appends no transaction record; a subsequent
`authenticate` with the new credential succeeds, while one with the old
credential fails through the wrong-credential branch (its failure counter
is incremented); and if the old digest does not match, `changePin` fails
with `Incorrect old PIN` leaving the state unchanged. -/
theorem atm_c9_pin_change (hf : String → String) (old_pin new_pin : String)
    (s : ATMState) (u : String) (acc : AccountRec) (t0 t : Int)
    (hnorm : pyNormalize u = u)
    (hsa : s.session_active = true) (hcu : s.current_user = some u)
    (hacc : dictFind s.accounts u = some acc)
    (hold : hashPassword hf old_pin = acc.password_hash)
    (hne : hashPassword hf new_pin ≠ hashPassword hf old_pin)
    (hfa : dictFind s.failed_attempts u = some (0, t0)) :
    change_pin hf old_pin new_pin s =
      .ok ((true, ("PIN successfully changed.")), pin_changed_state hf new_pin s u acc) ∧
    (pin_changed_state hf new_pin s u acc).transaction_history = s.transaction_history ∧
    (authenticate hf t u new_pin (pin_changed_state hf new_pin s u acc)).1.1 = true ∧
    (authenticate hf t u new_pin (pin_changed_state hf new_pin s u acc)).2.current_user = some u ∧
    (authenticate hf t u old_pin (pin_changed_state hf new_pin s u acc)).1.1 = false ∧
    dictFind (authenticate hf t u old_pin (pin_changed_state hf new_pin s u acc)).2.failed_attempts u = some (1, t) ∧
    (∀ old', hashPassword hf old' ≠ acc.password_hash →
       change_pin hf old' new_pin s = .ok ((false, ("Incorrect old PIN")), s)) := by
  have hfa' : dictFind (pin_changed_state hf new_pin s u acc).failed_attempts u = some (0, t0) := hfa
  have hacc' : dictFind (pin_changed_state hf new_pin s u acc).accounts u =
      some { acc with password_hash := hashPassword hf new_pin } :=
    dictFind_dictSet_self _ _ _
  have hnew : hashPassword hf new_pin =
      ({ acc with password_hash := hashPassword hf new_pin } : AccountRec).password_hash := rfl
  have holdne : hashPassword hf old_pin ≠
      ({ acc with password_hash := hashPassword hf new_pin } : AccountRec).password_hash :=
    fun hEq => hne (show hashPassword hf new_pin = hashPassword hf old_pin from hEq.symm)
  have hsucc := authenticate_success_low hf t u new_pin (pin_changed_state hf new_pin s u acc)
    0 t0 { acc with password_hash := hashPassword hf new_pin } hnorm hfa' (by norm_num) hacc' hnew
  have hfail := authenticate_wrong_low hf t u old_pin (pin_changed_state hf new_pin s u acc)
    0 t0 { acc with password_hash := hashPassword hf new_pin } hnorm hfa' (by norm_num) hacc' holdne
  refine ⟨?_, rfl, ?_, ?_, ?_, ?_, ?_⟩
  · exact change_pin_eq_ok hf old_pin new_pin s u acc hsa hcu hacc hold
  · rw [hsucc]
  · rw [hsucc]
  · rw [hfail]
  · rw [hfail]
    simpa using dictFind_dictSet_self
      (pin_changed_state hf new_pin s u acc).failed_attempts u ((1 : Nat), t)
  · intro old' hw
    exact change_pin_eq_fail hf old' new_pin s u acc hsa hcu hacc hw

/-- Logged-in state for the C9 witness. -/
def c9w_state : ATMState :=
  { accounts := [(("ATA"), { password_hash := hashPassword id ("8830"), saldo := 100000 })],
    daily_totals := [(("ATA"), [(("withdrawal"), []), (("deposit"), []), (("transfer"), [])])],
    transaction_history := [],
    failed_attempts := [(("ATA"), (0, 0))],
    session_active := true,
    current_user := some ("ATA") }

/-- C9 witness: changing `ATA`'s PIN from `8830` to `1234` succeeds;
afterwards `1234` authenticates and `8830` is rejected. -/
theorem atm_c9_witness :
    change_pin id ("8830") ("1234") c9w_state =
      .ok ((true, ("PIN successfully changed.")),
           pin_changed_state id ("1234") c9w_state ("ATA")
             { password_hash := hashPassword id ("8830"), saldo := 100000 }) ∧
    (authenticate id 7 ("ATA") ("1234")
      (pin_changed_state id ("1234") c9w_state ("ATA")
        { password_hash := hashPassword id ("8830"), saldo := 100000 })).1.1 = true ∧
    (authenticate id 7 ("ATA") ("8830")
      (pin_changed_state id ("1234") c9w_state ("ATA")
        { password_hash := hashPassword id ("8830"), saldo := 100000 })).1.1 = false :=
  ⟨(atm_c9_pin_change id ("8830") ("1234") c9w_state ("ATA")
      { password_hash := hashPassword id ("8830"), saldo := 100000 } 0 7
      (by decide) (by decide) (by decide) (by decide) (by decide) (by decide) (by decide)).1,
   (atm_c9_pin_change id ("8830") ("1234") c9w_state ("ATA")
      { password_hash := hashPassword id ("8830"), saldo := 100000 } 0 7
      (by decide) (by decide) (by decide) (by decide) (by decide) (by decide) (by decide)).2.2.1,
   (atm_c9_pin_change id ("8830") ("1234") c9w_state ("ATA")
      { password_hash := hashPassword id ("8830"), saldo := 100000 } 0 7
      (by decide) (by decide) (by decide) (by decide) (by decide) (by decide) (by decide)).2.2.2.2.1⟩

/-- C10: while a session is active for account `a`, a successful
`authenticate(b, cred)` for a different existing, unlocked account `b`
silently rebinds the single global session to `b`: the call returns
`true` with no error, the session stays active, the current user becomes
`b`, only `b`'s failure counter is touched — no logout is required and
`a`'s session is never explicitly ended. -/
theorem atm_c10_session_rebind (hf : String → String) (now : Int)
    (a b cred : String) (s : ATMState) (acc : AccountRec)
    (hnorm : pyNormalize b = b)
    (hsa : s.session_active = true) (hcu : s.current_user = some a) (hab : b ≠ a)
    (hacc : dictFind s.accounts b = some acc)
    (hpw : hashPassword hf cred = acc.password_hash)
    (hopen : dictFind s.failed_attempts b = none ∨
      ∃ k t0, dictFind s.failed_attempts b = some (k, t0) ∧ k < 3) :
    authenticate hf now b cred s =
      ((true, ""),
       { s with failed_attempts := dictSet s.failed_attempts b (0, now),
                session_active := true, current_user := some b }) := by
  rcases hopen with h | ⟨k, t0, h, hk⟩
  · exact authenticate_success_noentry hf now b cred s acc hnorm h hacc hpw
  · exact authenticate_success_low hf now b cred s k t0 acc hnorm h hk hacc hpw

/-- Two-account state for the C10 witness: `ATA` is logged in. -/
def c10_state : ATMState :=
  { accounts := [(("ATA"), { password_hash := hashPassword id ("8830"), saldo := 100000 }),
                 (("AISYAH"), { password_hash := hashPassword id ("8790"), saldo := 50000 })],
    daily_totals := [(("ATA"), [(("withdrawal"), []), (("deposit"), []), (("transfer"), [])]),
                     (("AISYAH"), [(("withdrawal"), []), (("deposit"), []), (("transfer"), [])])],
    transaction_history := [],
    failed_attempts := [],
    session_active := true,
    current_user := some ("ATA") }

/-- C10 witness: with `ATA` logged in, authenticating `AISYAH` succeeds
and rebinds the session to `AISYAH` without any logout. -/
theorem atm_c10_witness :
    c10_state.session_active = true ∧ c10_state.current_user = some ("ATA") ∧
    authenticate id 3 ("AISYAH") ("8790") c10_state =
      ((true, ""),
       { c10_state with failed_attempts := dictSet c10_state.failed_attempts ("AISYAH") (0, 3),
                        session_active := true, current_user := some ("AISYAH") }) :=
  ⟨by decide, by decide,
   atm_c10_session_rebind id 3 ("ATA") ("AISYAH") ("8790") c10_state
     { password_hash := hashPassword id ("8790"), saldo := 50000 }
     (by decide) (by decide) (by decide) (by decide) (by decide) (by decide)
     (Or.inl (by decide))⟩
